import Mathlib

/-
  QuickNotes (src/app.js): a shallow embedding of the session reconciler, the
  note-store adapter, the local note projection and the status region, with the
  properties of the specification proved (or refuted) against it.

  Conventions of the embedding.
  * The module-level variables of app.js (currentUser, isSyncing, notes,
    editingNoteId, statusTimeoutId) and the parts of the DOM the handlers read
    or write are the fields of `State`.
  * An async handler is split at its network await: `...Begin` runs up to the
    await and reports the remote calls it issued, `...Resume` runs the rest once
    the awaited promise has settled. The handler of the same name without a
    suffix is the run in which nothing else is scheduled in between.
  * A thrown or rejected value is an Error object carrying a message string.
  * A JavaScript time value is `Option Int`: integral epoch milliseconds,
    `none` for NaN.
  * `host` is what the engine running the page reads from a date string that
    ECMAScript leaves to the implementation; every property holds for every host.
-/

namespace QuickNotes

-- ---------------------------------------------------------------------------
-- JavaScript strings
-- ---------------------------------------------------------------------------

/-- Does `text` begin with the characters of `pat`? -/
def startsWithChars : List Char → List Char → Bool
  | [], _ => true
  | _ :: _, [] => false
  | p :: ps, c :: cs => p == c && startsWithChars ps cs

/-- Does `pat` occur as a contiguous run inside the given characters? -/
def includesChars (pat : List Char) : List Char → Bool
  | [] => pat.isEmpty
  | c :: cs => startsWithChars pat (c :: cs) || includesChars pat cs

/-- String.prototype.includes. -/
def includes (s pat : String) : Bool := includesChars pat.data s.data

/-- String.prototype.toLowerCase on the ASCII letters; other characters are kept.
The only use (`updateAuthStatus`) searches the result for the ASCII words
"error" and "failed", which no lower-casing of a non-ASCII letter can create. -/
def toLowerCase (s : String) : String := String.mk (s.data.map Char.toLower)

/-- WhiteSpace and LineTerminator code points of ECMAScript, the ones `trim` strips. -/
def isWhiteSpace (c : Char) : Bool :=
  (9 ≤ c.toNat && c.toNat ≤ 13) || c.toNat == 32 || c.toNat == 160 || c.toNat == 5760
    || (8192 ≤ c.toNat && c.toNat ≤ 8202) || c.toNat == 8232 || c.toNat == 8233
    || c.toNat == 8239 || c.toNat == 8287 || c.toNat == 12288 || c.toNat == 65279

/-- String.prototype.trim. -/
def trim (s : String) : String :=
  String.mk (((s.data.dropWhile isWhiteSpace).reverse.dropWhile isWhiteSpace).reverse)

/-- An Error object, as thrown by the client library or by a built-in. -/
structure JsError where
  message : String
deriving DecidableEq

-- ---------------------------------------------------------------------------
-- Date: the ECMAScript time-value arithmetic behind
--   new Date(ms).toISOString()   and   new Date(isoString).getTime()
-- ---------------------------------------------------------------------------

def msPerDay : Int := 86400000

/-- Day number of a time value (floor division). -/
def Day (t : Int) : Int := t / msPerDay

def DaysInYear (y : Int) : Int :=
  if y % 4 ≠ 0 then 365 else if y % 100 ≠ 0 then 366 else if y % 400 ≠ 0 then 365 else 366

/-- Day number of 1 January of year `y`. -/
def DayFromYear (y : Int) : Int :=
  365 * (y - 1970) + (y - 1969) / 4 - (y - 1901) / 100 + (y - 1601) / 400

/-- The year containing day `d`: the largest `y` with `DayFromYear y ≤ d`, computed
from the mean-year estimate with one correction step in either direction. -/
def YearFromDay (d : Int) : Int :=
  let y := 1970 + (400 * d) / 146097
  if d < DayFromYear y then y - 1 else if DayFromYear (y + 1) ≤ d then y + 1 else y

def YearFromTime (t : Int) : Int := YearFromDay (Day t)

/-- One for a leap year, zero otherwise. -/
def leapDays (y : Int) : Int := if DaysInYear y = 366 then 1 else 0

def InLeapYear (t : Int) : Int := leapDays (YearFromTime t)

def DayWithinYear (t : Int) : Int := Day t - DayFromYear (YearFromTime t)

/-- Month number (0 = January) of day `d` of a year with `l` leap days. -/
def monthOfYearDay (d l : Int) : Int :=
  if d < 31 then 0
  else if d < 59 + l then 1
  else if d < 90 + l then 2
  else if d < 120 + l then 3
  else if d < 151 + l then 4
  else if d < 181 + l then 5
  else if d < 212 + l then 6
  else if d < 243 + l then 7
  else if d < 273 + l then 8
  else if d < 304 + l then 9
  else if d < 334 + l then 10
  else 11

/-- Number of days of the year before the first of month `m` (0 = January). -/
def daysBeforeMonth (m l : Int) : Int :=
  if m = 0 then 0
  else if m = 1 then 31
  else if m = 2 then 59 + l
  else if m = 3 then 90 + l
  else if m = 4 then 120 + l
  else if m = 5 then 151 + l
  else if m = 6 then 181 + l
  else if m = 7 then 212 + l
  else if m = 8 then 243 + l
  else if m = 9 then 273 + l
  else if m = 10 then 304 + l
  else 334 + l

def MonthFromTime (t : Int) : Int := monthOfYearDay (DayWithinYear t) (InLeapYear t)

def DateFromTime (t : Int) : Int :=
  DayWithinYear t - daysBeforeMonth (MonthFromTime t) (InLeapYear t) + 1

def HourFromTime (t : Int) : Int := (t / 3600000) % 24

def MinFromTime (t : Int) : Int := (t / 60000) % 60

def SecFromTime (t : Int) : Int := (t / 1000) % 60

def msFromTime (t : Int) : Int := t % 1000

def MakeTime (h mi s ms : Int) : Int := h * 3600000 + mi * 60000 + s * 1000 + ms

def MakeDay (y m dt : Int) : Int :=
  let ym := y + m / 12
  let mn := m % 12
  DayFromYear ym + daysBeforeMonth mn (leapDays ym) + dt - 1

def MakeDate (day time : Int) : Int := day * msPerDay + time

/-- TimeClip: a time value further than 8.64e15 ms from the epoch is NaN. -/
def TimeClip (t : Int) : Option Int :=
  if 8640000000000000 < t.natAbs then none else some t

/-- The result of `new Date(v)` for a number `v`, as a time value. -/
def newDate (v : Option Int) : Option Int := v.bind TimeClip

/-- The decimal digit character of `n % 10`. -/
def digitChar (n : Nat) : Char := Char.ofNat (48 + n % 10)

/-- The `w` low-order decimal digits of `n`, most significant first. -/
def padDigits : Nat → Nat → List Char
  | 0, _ => []
  | w + 1, n => digitChar (n / 10 ^ w) :: padDigits w (n % 10 ^ w)

/-- Year field of toISOString: four digits for 0..9999, else a sign and six digits. -/
def yearChars (y : Int) : List Char :=
  if 0 ≤ y ∧ y ≤ 9999 then padDigits 4 y.toNat
  else if y < 0 then '-' :: padDigits 6 (-y).toNat
  else '+' :: padDigits 6 y.toNat

/-- The characters YYYY-MM-DDTHH:mm:ss.sssZ of a time value. -/
def isoChars (t : Int) : List Char :=
  yearChars (YearFromTime t) ++ '-' :: padDigits 2 (MonthFromTime t + 1).toNat
    ++ '-' :: padDigits 2 (DateFromTime t).toNat
    ++ 'T' :: padDigits 2 (HourFromTime t).toNat
    ++ ':' :: padDigits 2 (MinFromTime t).toNat
    ++ ':' :: padDigits 2 (SecFromTime t).toNat
    ++ '.' :: padDigits 3 (msFromTime t).toNat
    ++ ['Z']

/-- Date.prototype.toISOString: a RangeError for an invalid date. -/
def toISOString (tv : Option Int) : Except JsError String :=
  match tv with
  | none => .error ⟨"Invalid time value"⟩
  | some t => .ok (String.mk (isoChars t))

def digitValue (c : Char) : Option Nat :=
  if 48 ≤ c.toNat ∧ c.toNat ≤ 57 then some (c.toNat - 48) else none

/-- Read exactly `w` decimal digits. -/
def readDigits : Nat → List Char → Option (Nat × List Char)
  | 0, cs => some (0, cs)
  | _ + 1, [] => none
  | w + 1, c :: cs =>
    (digitValue c).bind fun d =>
      (readDigits w cs).bind fun p => some (d * 10 ^ w + p.1, p.2)

/-- Year of the date-time string format: YYYY, +YYYYYY or -YYYYYY (not -000000). -/
def readYear : List Char → Option (Int × List Char)
  | [] => none
  | c :: cs =>
    if c = '+' then (readDigits 6 cs).bind fun p => some ((p.1 : Int), p.2)
    else if c = '-' then
      (readDigits 6 cs).bind fun p => if p.1 = 0 then none else some (-(p.1 : Int), p.2)
    else (readDigits 4 (c :: cs)).bind fun p => some ((p.1 : Int), p.2)

/-- Read the separator `sep` followed by exactly `w` digits. -/
def readSep (sep : Char) (w : Nat) : List Char → Option (Nat × List Char)
  | [] => none
  | c :: cs => if c = sep then readDigits w cs else none

/-- Time-zone designator at the end of the string: Z, +HH:mm or -HH:mm, as the
offset in milliseconds east of UTC. -/
def readZone : List Char → Option Int
  | [] => none
  | c :: cs =>
    if c = 'Z' then (if cs = [] then some 0 else none)
    else if c = '+' ∨ c = '-' then
      (readDigits 2 cs).bind fun h =>
        (readSep ':' 2 h.2).bind fun m =>
          if m.2 = [] ∧ h.1 ≤ 23 ∧ m.1 ≤ 59 then
            some ((if c = '-' then -1 else 1) * ((h.1 : Int) * 3600000 + (m.1 : Int) * 60000))
          else none
    else none

def DaysInMonth (y m : Int) : Int :=
  if m = 11 then 31 else daysBeforeMonth (m + 1) (leapDays y) - daysBeforeMonth m (leapDays y)

/-- Time of day HH:mm, HH:mm:ss or HH:mm:ss.sss, in milliseconds: the fraction is
read only after seconds, and hour 24 stands only for the end of the day. -/
def readTime (cs : List Char) : Option (Int × List Char) :=
  (readDigits 2 cs).bind fun h =>
    (readSep ':' 2 h.2).bind fun mi =>
      let sec : Nat × List Char := match readSep ':' 2 mi.2 with
        | some s => s
        | none => (0, mi.2)
      let ms : Nat × List Char := match readSep ':' 2 mi.2 with
        | some s =>
          (match readSep '.' 3 s.2 with
            | some f => f
            | none => (0, s.2))
        | none => (0, mi.2)
      if (h.1 ≤ 23 ∧ mi.1 ≤ 59 ∧ sec.1 ≤ 59) ∨ (h.1 = 24 ∧ mi.1 = 0 ∧ sec.1 = 0 ∧ ms.1 = 0) then
        some (MakeTime h.1 mi.1 sec.1 ms.1, ms.2)
      else none

/-- The part of Date parsing that ECMAScript fixes for every engine: a string in the
date-time string format with valid fields, which is a date (year, optional month and
day) alone, read as UTC, or a date followed by T, a time of day and a time-zone
designator. The result is `some tv` with `tv` the time value (NaN when out of range),
and `none` for every other string: a date-time with no designator (local time), a
fraction of other than three digits, a day the month does not have, and whatever
else is left to the engine. -/
def parseChars (cs : List Char) : Option (Option Int) :=
  (readYear cs).bind fun y =>
    let mo : Nat × List Char := match readSep '-' 2 y.2 with
      | some m => m
      | none => (1, y.2)
    let dd : Nat × List Char := match readSep '-' 2 mo.2 with
      | some d => d
      | none => (1, mo.2)
    if 1 ≤ mo.1 ∧ mo.1 ≤ 12 ∧ 1 ≤ dd.1 ∧ (dd.1 : Int) ≤ DaysInMonth y.1 ((mo.1 : Int) - 1) then
      let day := MakeDay y.1 ((mo.1 : Int) - 1) dd.1
      match dd.2 with
      | [] => some (TimeClip (MakeDate day 0))
      | c :: rest =>
        if c = 'T' then
          (readTime rest).bind fun tm =>
            (readZone tm.2).bind fun off => some (TimeClip (MakeDate day tm.1 - off))
        else none
    else none

/-- The result of `new Date(s).getTime()` for a string `s`. On the date-time string
format it is what ECMAScript prescribes; on any other string it is what the engine
running the page reads, `host s` (Date is a built-in, not code of app.js). -/
def dateParse (host : String → Option Int) (s : String) : Option Int :=
  match parseChars s.data with
  | some tv => tv
  | none => host s

-- ---------------------------------------------------------------------------
-- Data model
-- ---------------------------------------------------------------------------

/-- The principal of a session: `user.id`, and `user.email` when the provider has one. -/
structure User where
  id : String
  email : Option String
deriving DecidableEq

/-- A session object handed over by the identity provider; `user` may be missing. -/
structure Session where
  user : Option User
deriving DecidableEq

/-- An element of `notes`: {id, title, content, created}. -/
structure Note where
  id : String
  title : String
  content : String
  created : Option Int
deriving DecidableEq

/-- A row of the remote table as selected by `cloudLoadNotes`. -/
structure Row where
  id : String
  title : String
  content : String
  created : String
deriving DecidableEq

/-- The object `cloudAddNote` hands to `insert`. -/
structure Payload where
  id : String
  user_id : String
  title : String
  content : String
  created : String
deriving DecidableEq

/-- A request sent to the backend. -/
inductive RemoteCall where
  | list (userId : String)
  | insert (payload : Payload)
  | update (id userId title content : String)
  | delete (id userId : String)
  | signOut
deriving DecidableEq

/-- The element authMsg: its text and whether it carries the class visually-hidden. -/
structure AuthMsg where
  textContent : String
  hidden : Bool
deriving DecidableEq

/-- The pending auto-hide timer of the status region (what statusTimeoutId refers
to while the timer has neither fired nor been cleared). -/
structure StatusTimer where
  message : String
  delay : Nat
deriving DecidableEq

/-- What `updateAuthUI` writes: the two auth panels, the e-mail label, the create button. -/
structure AuthUI where
  signedOutShown : Bool
  signedInShown : Bool
  userEmailText : String
  createDisabled : Bool
deriving DecidableEq

/-- One li.note-item of the rendered list. -/
structure NoteItem where
  id : String
  title : String
  content : String
deriving DecidableEq

/-- What `render` writes: the empty-state element, the list entries, the count label. -/
structure View where
  emptyShown : Bool
  items : List NoteItem
  countText : String
deriving DecidableEq

/-- The module state of app.js together with the DOM state its handlers use.
`authMsg` is `none` when the page has no element with id authMsg. -/
structure State where
  currentUser : Option User
  isSyncing : Bool
  notes : List Note
  editingNoteId : Option String
  authMsg : Option AuthMsg
  statusTimer : Option StatusTimer
  authUI : AuthUI
  signOutLoading : Bool
  modalOpen : Bool
  modalTitle : String
  noteTitleInput : String
  noteContentInput : String
  view : View
deriving DecidableEq

/-- A handler suspended at a network await. -/
inductive Pending where
  | load
  | save
  | remove (noteId : String)
  | signOut
deriving DecidableEq

/-- The outcome of running a handler up to its await (or to its end): the new
state, the remote calls issued, and the suspended rest of the handler if any. -/
structure Step where
  state : State
  calls : List RemoteCall
  pending : Option Pending
deriving DecidableEq

/-- Which of the two promises of the sign-out race settled first. -/
inductive SignOutOutcome where
  | resolved
  | rejected (err : JsError)
  | deadline
deriving DecidableEq

-- ---------------------------------------------------------------------------
-- Helpers (app.js lines 90-200)
-- ---------------------------------------------------------------------------

/-- Delay of the auto-hide timer of `updateAuthStatus`, in milliseconds. -/
def statusHideMs : Nat := 3000

/-- The function updateAuthStatus(message, autoHide). -/
def updateAuthStatus (s : State) (message : String) (autoHide : Bool) : State :=
  match s.authMsg with
  | none => s
  | some _ =>
    { s with
      authMsg := some ⟨message, decide (message = "")⟩
      statusTimer :=
        if message ≠ "" ∧ autoHide = true ∧ includes (toLowerCase message) "error" = false
            ∧ includes (toLowerCase message) "failed" = false then
          some ⟨message, statusHideMs⟩
        else none }

/-- The callback of the auto-hide timer. -/
def statusTimerFires (s : State) : State :=
  match s.statusTimer with
  | none => s
  | some tm =>
    match s.authMsg with
    | none => { s with statusTimer := none }
    | some a =>
      if a.textContent = tm.message then
        { s with statusTimer := none, authMsg := some ⟨"", true⟩ }
      else { s with statusTimer := none }

/-- The function updateAuthUI(user). -/
def updateAuthUI (s : State) (user : Option User) : State :=
  { s with
    authUI :=
      match user with
      | some u =>
        { signedOutShown := false
          signedInShown := true
          userEmailText :=
            match u.email with
            | some e => if e = "" then u.id else e
            | none => u.id
          createDisabled := false }
      | none =>
        { signedOutShown := true, signedInShown := false, userEmailText := "-",
          createDisabled := true } }

/-- The function setButtonLoading(signOutBtn, isLoading). -/
def setButtonLoading (s : State) (isLoading : Bool) : State :=
  { s with signOutLoading := isLoading }

/-- The function noteCountText(). -/
def noteCountText (notes : List Note) : String :=
  if notes.length = 1 then "1 note" else Nat.repr notes.length ++ " notes"

/-- The function render(). -/
def render (s : State) : State :=
  { s with
    view :=
      { emptyShown := decide (s.notes.length = 0)
        items :=
          if s.notes.length = 0 then []
          else s.notes.map fun n => { id := n.id, title := n.title, content := n.content }
        countText := noteCountText s.notes } }

-- ---------------------------------------------------------------------------
-- Note-store adapter (app.js lines 203-252)
-- ---------------------------------------------------------------------------

/-- The row-to-note mapping of `cloudLoadNotes`. -/
def rowToNote (host : String → Option Int) (r : Row) : Note :=
  { id := r.id, title := r.title, content := r.content, created := dateParse host r.created }

/-- The function cloudLoadNotes after its query has settled: `result` is the error
of the query (or the rejection of its promise) or the data, which may be null. -/
def cloudLoadNotes (host : String → Option Int) (s : State)
    (result : Except JsError (Option (List Row))) : Except JsError State :=
  match result with
  | .error e => .error e
  | .ok data => .ok { s with notes := (data.getD []).map (rowToNote host) }

/-- The payload built by `cloudAddNote`; toISOString throws for an invalid date. -/
def addNotePayload (user : User) (note : Note) : Except JsError Payload :=
  match toISOString (newDate note.created) with
  | .error e => .error e
  | .ok iso =>
    .ok { id := note.id, user_id := user.id, title := note.title, content := note.content,
          created := iso }

/-- The row a payload becomes once stored and selected back (user_id is not selected). -/
def payloadRow (p : Payload) : Row :=
  { id := p.id, title := p.title, content := p.content, created := p.created }

-- ---------------------------------------------------------------------------
-- Session management (app.js lines 255-279)
-- ---------------------------------------------------------------------------

/-- The expression session?.user ?? null. -/
def sessionUser (session : Option Session) : Option User := session.bind fun x => x.user

/-- The function applySession up to `await cloudLoadNotes(currentUser)`. -/
def applySessionBegin (s : State) (session : Option Session) : Step :=
  if s.isSyncing = true then { state := s, calls := [], pending := none }
  else
    let s1 := { s with isSyncing := true }
    let s2 := { s1 with currentUser := sessionUser session }
    let s3 := updateAuthUI s2 s2.currentUser
    match s3.currentUser with
    | some u =>
      { state := updateAuthStatus s3 "Loading notes..." false
        calls := [RemoteCall.list u.id]
        pending := some Pending.load }
    | none =>
      let s4 := { s3 with notes := [] }
      let s5 := updateAuthStatus s4 "" true
      let s6 := render s5
      { state := { s6 with isSyncing := false }, calls := [], pending := none }

/-- The function applySession from the settling of the load query to its end. -/
def applySessionResume (host : String → Option Int) (s : State)
    (result : Except JsError (Option (List Row))) : State :=
  let s1 :=
    match cloudLoadNotes host s result with
    | .ok loaded => updateAuthStatus loaded "" true
    | .error err =>
      { updateAuthStatus s ("Load failed: " ++ err.message) false with notes := [] }
  let s2 := render s1
  { s2 with isSyncing := false }

/-- The function applySession, run without interruption. -/
def applySession (host : String → Option Int) (s : State) (session : Option Session)
    (result : Except JsError (Option (List Row))) : State × List RemoteCall :=
  let st := applySessionBegin s session
  match st.pending with
  | some _ => (applySessionResume host st.state result, st.calls)
  | none => (st.state, st.calls)

-- ---------------------------------------------------------------------------
-- Sign-out (app.js lines 148-188)
-- ---------------------------------------------------------------------------

/-- Delay of the timer behind timeoutPromise, in milliseconds. -/
def signOutDeadlineMs : Nat := 8000

/-- The error timeoutPromise rejects with. -/
def signOutTimeoutError : JsError := ⟨"Sign out timed out"⟩

/-- The expression Promise.race([signOutPromise, timeoutPromise]). -/
def raceSignOut : SignOutOutcome → Except JsError Unit
  | .resolved => .ok ()
  | .rejected err => .error err
  | .deadline => .error signOutTimeoutError

/-- The function performSignOut up to `await Promise.race(...)`. -/
def performSignOutBegin (s : State) : Step :=
  let s1 := setButtonLoading s true
  let s2 := updateAuthStatus s1 "Signing out..." true
  { state := s2, calls := [RemoteCall.signOut], pending := some Pending.signOut }

/-- The function performSignOut from the settling of the race to its end. -/
def performSignOutResume (s : State) (race : Except JsError Unit) : State :=
  let s5 :=
    match race with
    | .ok _ =>
      let s1 := { s with currentUser := none }
      let s2 := updateAuthUI s1 none
      let s3 := { s2 with notes := [] }
      let s4 := render s3
      updateAuthStatus s4 "Signed out successfully." true
    | .error err =>
      let s1 := { s with currentUser := none }
      let s2 := updateAuthUI s1 none
      let s3 := { s2 with notes := [] }
      let s4 := render s3
      if includes err.message "timed out" = true then
        updateAuthStatus s4 "Signed out (network timeout, using local fallback)." true
      else
        updateAuthStatus s4 "Signed out (network error, using local fallback)." true
  setButtonLoading s5 false

/-- The function performSignOut, run without interruption. -/
def performSignOut (s : State) (outcome : SignOutOutcome) : State × List RemoteCall :=
  let st := performSignOutBegin s
  (performSignOutResume st.state (raceSignOut outcome), st.calls)

-- ---------------------------------------------------------------------------
-- Modal and note form (app.js lines 343-411)
-- ---------------------------------------------------------------------------

/-- Truthiness of a value that is null or a string. -/
def truthy (v : Option String) : Bool :=
  match v with
  | some x => decide (x ≠ "")
  | none => false

/-- The function openModal(editNote). -/
def openModal (s : State) (editNote : Option Note) : State :=
  let eid : Option String :=
    match editNote with
    | some n => if n.id = "" then none else some n.id
    | none => none
  { s with
    editingNoteId := eid
    modalTitle := if truthy eid = true then "Edit Note" else "Create Note"
    noteTitleInput := match editNote with
      | some n => n.title
      | none => ""
    noteContentInput := match editNote with
      | some n => n.content
      | none => ""
    modalOpen := true }

/-- The function closeModal(); the form fields reset to empty. -/
def closeModal (s : State) : State :=
  { s with editingNoteId := none, noteTitleInput := "", noteContentInput := "",
           modalOpen := false }

/-- The click handler of createNoteBtn. -/
def createNoteBtnClick (s : State) : State :=
  match s.currentUser with
  | none => updateAuthStatus s "Please sign in to create notes." true
  | some _ => openModal s none

/-- The click handler of the edit button rendered for `note`. -/
def editBtnClick (s : State) (note : Note) : State :=
  match s.currentUser with
  | none => updateAuthStatus s "Please sign in to edit notes." true
  | some _ => openModal s (some note)

/-- The in-place update of the note `notes.find` returns: the first note with the id. -/
def updateFirst (id title content : String) : List Note → List Note
  | [] => []
  | n :: ns =>
    if n.id = id then { n with title := title, content := content } :: ns
    else n :: updateFirst id title content ns

/-- The submit handler from the settling of the write to its end (the tail of the
try block, or the catch block). -/
def noteFormSubmitResume (s : State) (result : Except JsError Unit) : State :=
  match result with
  | .ok _ =>
    let s1 := closeModal s
    let s2 := render s1
    updateAuthStatus s2
      (if truthy s2.editingNoteId = true then "Note updated successfully!"
       else "Note saved successfully!") true
  | .error err => updateAuthStatus s ("Save failed: " ++ err.message) false

/-- The submit handler of noteForm up to the await of the write. `newId` is the
value of uid() and `now` the value of Date.now(); `await uid()` is the await of a
promise that is already resolved and is taken in the same turn. When the payload
cannot be built the promise of cloudAddNote is rejected at once and the catch block
runs in the same turn as well. -/
def noteFormSubmitBegin (s : State) (newId : String) (now : Int) : Step :=
  match s.currentUser with
  | none => { state := s, calls := [], pending := none }
  | some user =>
    if s.isSyncing = true then { state := s, calls := [], pending := none }
    else
      let title := trim s.noteTitleInput
      let content := trim s.noteContentInput
      if title = "" ∨ content = "" then
        { state := updateAuthStatus s "Title and content are required." true
          calls := [], pending := none }
      else
        let s1 := updateAuthStatus s
          (if truthy s.editingNoteId = true then "Updating note..." else "Saving note...") false
        if truthy s1.editingNoteId = true then
          let eid := s1.editingNoteId.getD ""
          match s1.notes.find? (fun n => decide (n.id = eid)) with
          | some existing =>
            { state := { s1 with notes := updateFirst eid title content s1.notes }
              calls := [RemoteCall.update existing.id user.id title content]
              pending := some Pending.save }
          | none =>
            { state := noteFormSubmitResume s1 (.ok ()), calls := [], pending := none }
        else
          let note : Note := { id := newId, title := title, content := content,
                               created := some now }
          let s2 := { s1 with notes := note :: s1.notes }
          match addNotePayload user note with
          | .ok payload =>
            { state := s2, calls := [RemoteCall.insert payload], pending := some Pending.save }
          | .error err =>
            { state := noteFormSubmitResume s2 (.error err), calls := [], pending := none }

/-- The submit handler of noteForm, run without interruption. -/
def noteFormSubmit (s : State) (newId : String) (now : Int) (result : Except JsError Unit) :
    State × List RemoteCall :=
  let st := noteFormSubmitBegin s newId now
  match st.pending with
  | some _ => (noteFormSubmitResume st.state result, st.calls)
  | none => (st.state, st.calls)

-- ---------------------------------------------------------------------------
-- Delete button (app.js lines 452-468)
-- ---------------------------------------------------------------------------

/-- The click handler of the delete button rendered for the note with id `noteId`,
up to `await cloudDeleteNote(...)`; `confirmed` is the answer to confirm(). -/
def deleteBtnClickBegin (s : State) (noteId : String) (confirmed : Bool) : Step :=
  match s.currentUser with
  | none =>
    { state := updateAuthStatus s "Please sign in to delete notes." true
      calls := [], pending := none }
  | some user =>
    if confirmed = false then { state := s, calls := [], pending := none }
    else
      { state := s, calls := [RemoteCall.delete noteId user.id]
        pending := some (Pending.remove noteId) }

/-- The delete handler from the settling of the remote delete to its end. -/
def deleteBtnClickResume (s : State) (noteId : String) (result : Except JsError Unit) : State :=
  match result with
  | .ok _ =>
    let s1 := { s with notes := s.notes.filter fun n => decide (n.id ≠ noteId) }
    let s2 := render s1
    updateAuthStatus s2 "Note deleted successfully!" true
  | .error err => updateAuthStatus s ("Delete failed: " ++ err.message) false

/-- The delete handler, run without interruption. -/
def deleteBtnClick (s : State) (noteId : String) (confirmed : Bool)
    (result : Except JsError Unit) : State × List RemoteCall :=
  let st := deleteBtnClickBegin s noteId confirmed
  match st.pending with
  | some _ => (deleteBtnClickResume st.state noteId result, st.calls)
  | none => (st.state, st.calls)

-- ---------------------------------------------------------------------------
-- The page as an event system
-- ---------------------------------------------------------------------------

/-- The page between two events: the state, the handlers suspended at an await,
and the remote calls issued so far (latest last). -/
structure Page where
  state : State
  pending : List Pending
  calls : List RemoteCall
deriving DecidableEq

/-- The settling of an awaited promise. -/
inductive Outcome where
  | listed (result : Except JsError (Option (List Row)))
  | written (result : Except JsError Unit)
  | signedOut (outcome : SignOutOutcome)

/-- What the event loop can deliver to the page. -/
inductive Event where
  | sessionChange (session : Option Session)
  | submit (newId : String) (now : Int)
  | typeTitle (text : String)
  | typeContent (text : String)
  | createClick
  | editClick (note : Note)
  | closeClick
  | deleteClick (noteId : String) (confirmed : Bool)
  | signOutClick
  | statusTimer
  | settle (index : Nat) (outcome : Outcome)

/-- The rest of a suspended handler, given how its promise settled. -/
def resume (host : String → Option Int) (s : State) : Pending → Outcome → Option State
  | .load, .listed r => some (applySessionResume host s r)
  | .save, .written r => some (noteFormSubmitResume s r)
  | .remove noteId, .written r => some (deleteBtnClickResume s noteId r)
  | .signOut, .signedOut o => some (performSignOutResume s (raceSignOut o))
  | _, _ => none

/-- Record the outcome of a handler run in the page. -/
def Page.after (p : Page) (st : Step) : Page :=
  { state := st.state
    pending := p.pending ++ st.pending.toList
    calls := p.calls ++ st.calls }

/-- One turn of the event loop. -/
def Page.step (host : String → Option Int) (p : Page) : Event → Page
  | .sessionChange session => p.after (applySessionBegin p.state session)
  | .submit newId now => p.after (noteFormSubmitBegin p.state newId now)
  | .typeTitle text => { p with state := { p.state with noteTitleInput := text } }
  | .typeContent text => { p with state := { p.state with noteContentInput := text } }
  | .createClick => { p with state := createNoteBtnClick p.state }
  | .editClick note => { p with state := editBtnClick p.state note }
  | .closeClick => { p with state := closeModal p.state }
  | .deleteClick noteId confirmed => p.after (deleteBtnClickBegin p.state noteId confirmed)
  | .signOutClick => p.after (performSignOutBegin p.state)
  | .statusTimer => { p with state := statusTimerFires p.state }
  | .settle index outcome =>
    match p.pending.get? index with
    | none => p
    | some k =>
      match resume host p.state k outcome with
      | none => p
      | some s => { p with state := s, pending := p.pending.eraseIdx index }

/-- The page after a sequence of events. -/
def Page.run (host : String → Option Int) (p : Page) (events : List Event) : Page :=
  events.foldl (Page.step host) p

/-- The state at load: the initial values of the module variables and an
unrendered page; `authMsg` tells whether the page has the status element. -/
def initialState (authMsg : Option AuthMsg) : State :=
  { currentUser := none
    isSyncing := false
    notes := []
    editingNoteId := none
    authMsg := authMsg
    statusTimer := none
    authUI := { signedOutShown := true, signedInShown := false, userEmailText := "-",
                createDisabled := true }
    signOutLoading := false
    modalOpen := false
    modalTitle := ""
    noteTitleInput := ""
    noteContentInput := ""
    view := { emptyShown := true, items := [], countText := "" } }

/-- The page at load. -/
def initialPage (authMsg : Option AuthMsg) : Page :=
  { state := initialState authMsg, pending := [], calls := [] }

/-- Number of reconciliation passes suspended at their load query. -/
def Page.inFlight (p : Page) : Nat := p.pending.count Pending.load

/-- The guard agrees with the suspended handlers: isSyncing is set exactly while
one reconciliation pass awaits its load query, and no second pass is suspended. -/
def Page.Consistent (p : Page) : Prop :=
  p.inFlight = if p.state.isSyncing = true then 1 else 0

-- ---------------------------------------------------------------------------
-- Order of the local note sequence
-- ---------------------------------------------------------------------------

/-- The comparison a >= b of two time values; false when either is NaN. -/
def geTime (a b : Option Int) : Prop :=
  match a, b with
  | some x, some y => y ≤ x
  | _, _ => False

instance geTimeDecidable (a b : Option Int) : Decidable (geTime a b) := by
  unfold geTime
  cases a <;> cases b <;> infer_instance

/-- Newest-created first: every note is at least as new as every note after it. -/
def SortedDesc (notes : List Note) : Prop :=
  notes.Pairwise fun a b => geTime a.created b.created

instance sortedDescDecidable (notes : List Note) : Decidable (SortedDesc notes) := by
  unfold SortedDesc
  infer_instance

/-- The row the store holds for a note, created written as `cloudAddNote` writes it;
`none` when toISOString throws. -/
def noteRow (n : Note) : Option Row :=
  match toISOString (newDate n.created) with
  | .ok iso => some { id := n.id, title := n.title, content := n.content, created := iso }
  | .error _ => none

/-- Does the event resume the suspended load query or a suspended sign-out? -/
def Page.resumesLoadOrSignOut (p : Page) : Event → Bool
  | .settle index _ =>
    p.pending.get? index == some Pending.load || p.pending.get? index == some Pending.signOut
  | _ => false

/-- The events are delivered one after the other from `p` and none of them
resumes the suspended load query or a suspended sign-out. -/
def Page.undisturbed (host : String → Option Int) (p : Page) : List Event → Bool
  | [] => true
  | e :: es => !p.resumesLoadOrSignOut e && (p.step host e).undisturbed host es

-- ---------------------------------------------------------------------------
-- Example inputs
-- ---------------------------------------------------------------------------

/-- A page with a status element, signed in as u1, holding one note created at
2024-11-04T21:00:00.123Z, with the create form filled in. -/
def signedInState : State :=
  { initialState (some ⟨"", true⟩) with
    currentUser := some ⟨"u1", some "a@b.com"⟩
    notes := [⟨"n1", "Groceries", "milk", some 1730754000123⟩]
    noteTitleInput := " T "
    noteContentInput := "C" }

/-- An engine that reads NaN from every date string outside the standard format. -/
def strictHost : String → Option Int := fun _ => none

/-- The wire row of the example note. -/
def exampleRow : Row :=
  { id := "n1", title := "Groceries", content := "milk", created := "2024-11-04T21:00:00.123Z" }

/-- A sign-out completes while a reconciliation awaits its load query: the page
loads with a session of u1, the user clicks sign out, the remote sign-out resolves,
the provider reports the signed-out session, and then the load query delivers. -/
def signOutDuringLoad : List Event :=
  [ Event.sessionChange (some ⟨some ⟨"u1", some "a@b.com"⟩⟩)
  , Event.signOutClick
  , Event.settle 1 (Outcome.signedOut SignOutOutcome.resolved)
  , Event.sessionChange none
  , Event.settle 0 (Outcome.listed (.ok (some [exampleRow]))) ]

/-- The same page after the edit button of its note was clicked and the form changed. -/
def editingState : State :=
  { editBtnClick signedInState ⟨"n1", "Groceries", "milk", some 1730754000123⟩ with
    noteTitleInput := "Shopping"
    noteContentInput := "milk, eggs" }

-- ---------------------------------------------------------------------------
-- Date: toISOString followed by Date.parse is the identity on valid time values
-- ---------------------------------------------------------------------------

theorem digitChar_toNat (n : Nat) : (digitChar n).toNat = 48 + n % 10 := by
  have h : n % 10 < 10 := Nat.mod_lt _ (by decide)
  unfold digitChar
  generalize n % 10 = k at h
  interval_cases k <;> rfl

theorem digitValue_digitChar (n : Nat) : digitValue (digitChar n) = some (n % 10) := by
  unfold digitValue
  rw [digitChar_toNat]
  have h : n % 10 < 10 := Nat.mod_lt _ (by decide)
  simp
  omega

theorem digitChar_ne_plus (n : Nat) : digitChar n ≠ '+' := by
  intro h
  have := congrArg Char.toNat h
  rw [digitChar_toNat] at this
  have e : ('+' : Char).toNat = 43 := rfl
  omega

theorem digitChar_ne_minus (n : Nat) : digitChar n ≠ '-' := by
  intro h
  have := congrArg Char.toNat h
  rw [digitChar_toNat] at this
  have e : ('-' : Char).toNat = 45 := rfl
  omega

theorem readDigits_padDigits (w : Nat) : ∀ (n : Nat) (rest : List Char), n < 10 ^ w →
    readDigits w (padDigits w n ++ rest) = some (n, rest) := by
  induction w with
  | zero =>
    intro n rest h
    have : n = 0 := by simpa using h
    subst this
    rfl
  | succ w ih =>
    intro n rest h
    have hp : 0 < 10 ^ w := pow_pos (by decide) w
    have hq : n / 10 ^ w < 10 := by
      rw [Nat.div_lt_iff_lt_mul hp]
      rw [pow_succ] at h
      omega
    have hr : n % 10 ^ w < 10 ^ w := Nat.mod_lt _ hp
    have e : padDigits (w + 1) n ++ rest
        = digitChar (n / 10 ^ w) :: (padDigits w (n % 10 ^ w) ++ rest) := rfl
    rw [e]
    simp only [readDigits, digitValue_digitChar, Option.some_bind, ih _ rest hr,
      Nat.mod_eq_of_lt hq, Nat.div_add_mod' n (10 ^ w)]

theorem readSep_padDigits (sep : Char) (w n : Nat) (rest : List Char) (h : n < 10 ^ w) :
    readSep sep w (sep :: (padDigits w n ++ rest)) = some (n, rest) := by
  simp only [readSep, if_true, readDigits_padDigits w n rest h]

theorem readYear_yearChars (y : Int) (rest : List Char) (h1 : -999999 ≤ y) (h2 : y ≤ 999999) :
    readYear (yearChars y ++ rest) = some (y, rest) := by
  unfold yearChars
  split_ifs with ha hb
  · have hn : y.toNat < 10 ^ 4 := by omega
    have e : padDigits 4 y.toNat ++ rest
        = digitChar (y.toNat / 10 ^ 3) :: (padDigits 3 (y.toNat % 10 ^ 3) ++ rest) := rfl
    have r := readDigits_padDigits 4 y.toNat rest hn
    rw [e] at r ⊢
    simp only [readYear, digitChar_ne_plus, digitChar_ne_minus, if_false, r, Option.some_bind]
    congr 2
    omega
  · have hn : (-y).toNat < 10 ^ 6 := by omega
    have h0 : (-y).toNat ≠ 0 := by omega
    simp only [List.cons_append, readYear, readDigits_padDigits 6 _ rest hn, Option.some_bind,
      if_true, h0, if_false]
    simp only [show ('-' : Char) = '+' ↔ False from by decide, if_false]
    congr 2
    omega
  · have hn : y.toNat < 10 ^ 6 := by omega
    simp only [List.cons_append, readYear, readDigits_padDigits 6 _ rest hn, Option.some_bind,
      if_true]
    congr 2
    omega

theorem readTime_padDigits (h mi s ms : Nat) (rest : List Char)
    (hh : h ≤ 23) (hmi : mi ≤ 59) (hs : s ≤ 59) (hms : ms ≤ 999) :
    readTime (padDigits 2 h ++ ':' :: (padDigits 2 mi ++ ':' :: (padDigits 2 s
      ++ '.' :: (padDigits 3 ms ++ rest)))) = some (MakeTime h mi s ms, rest) := by
  unfold readTime
  rw [readDigits_padDigits 2 h _ (by omega)]
  simp only [Option.some_bind]
  rw [readSep_padDigits ':' 2 mi _ (by omega)]
  simp only [Option.some_bind]
  rw [readSep_padDigits ':' 2 s _ (by omega)]
  simp only []
  rw [readSep_padDigits '.' 3 ms _ (by omega)]
  simp only [hh, hmi, hs, true_and, true_or, if_true]

theorem yearFromDay_spec (d : Int) :
    DayFromYear (YearFromDay d) ≤ d ∧ d < DayFromYear (YearFromDay d + 1) := by
  have h : DayFromYear (1970 + 400 * d / 146097 - 1) ≤ d
      ∧ d < DayFromYear (1970 + 400 * d / 146097 + 2) := by
    unfold DayFromYear
    omega
  unfold YearFromDay
  simp only
  split_ifs with h1 h2
  · rw [sub_add_cancel]; exact ⟨h.1, h1⟩
  · refine ⟨h2, ?_⟩
    have e : 1970 + 400 * d / 146097 + 1 + 1 = 1970 + 400 * d / 146097 + 2 := by ring
    rw [e]; exact h.2
  · exact ⟨not_lt.mp h1, not_le.mp h2⟩

theorem dayFromYear_succ (y : Int) : DayFromYear (y + 1) = DayFromYear y + 365 + leapDays y := by
  unfold DayFromYear leapDays DaysInYear
  split_ifs <;> omega

theorem leapDays_range (y : Int) : leapDays y = 0 ∨ leapDays y = 1 := by
  unfold leapDays
  split_ifs <;> simp

theorem yearFromDay_range (d : Int) (h1 : -100000000 ≤ d) (h2 : d ≤ 100000000) :
    -271821 ≤ YearFromDay d ∧ YearFromDay d ≤ 275760 := by
  have h := yearFromDay_spec d
  generalize YearFromDay d = y at h
  unfold DayFromYear at h
  omega

theorem daysBeforeMonth_lit (l : Int) :
    daysBeforeMonth 0 l = 0 ∧ daysBeforeMonth 1 l = 31 ∧ daysBeforeMonth 2 l = 59 + l
      ∧ daysBeforeMonth 3 l = 90 + l ∧ daysBeforeMonth 4 l = 120 + l
      ∧ daysBeforeMonth 5 l = 151 + l ∧ daysBeforeMonth 6 l = 181 + l
      ∧ daysBeforeMonth 7 l = 212 + l ∧ daysBeforeMonth 8 l = 243 + l
      ∧ daysBeforeMonth 9 l = 273 + l ∧ daysBeforeMonth 10 l = 304 + l
      ∧ daysBeforeMonth 11 l = 334 + l := by
  refine ⟨?_, ?_, ?_, ?_, ?_, ?_, ?_, ?_, ?_, ?_, ?_, ?_⟩ <;> rfl

theorem monthOfYearDay_cases (d l : Int) :
    ∃ m : Int, monthOfYearDay d l = m ∧ ((m = 0 ∧ d < 31)
      ∨ (m = 1 ∧ 31 ≤ d ∧ d < 59 + l)
      ∨ (m = 2 ∧ 59 + l ≤ d ∧ d < 90 + l)
      ∨ (m = 3 ∧ 90 + l ≤ d ∧ d < 120 + l)
      ∨ (m = 4 ∧ 120 + l ≤ d ∧ d < 151 + l)
      ∨ (m = 5 ∧ 151 + l ≤ d ∧ d < 181 + l)
      ∨ (m = 6 ∧ 181 + l ≤ d ∧ d < 212 + l)
      ∨ (m = 7 ∧ 212 + l ≤ d ∧ d < 243 + l)
      ∨ (m = 8 ∧ 243 + l ≤ d ∧ d < 273 + l)
      ∨ (m = 9 ∧ 273 + l ≤ d ∧ d < 304 + l)
      ∨ (m = 10 ∧ 304 + l ≤ d ∧ d < 334 + l)
      ∨ (m = 11 ∧ 334 + l ≤ d)) := by
  unfold monthOfYearDay
  by_cases h0 : d < 31
  · exact ⟨0, if_pos h0, Or.inl ⟨rfl, h0⟩⟩
  rw [if_neg h0]
  by_cases h1 : d < 59 + l
  · exact ⟨1, if_pos h1, Or.inr (Or.inl ⟨rfl, not_lt.mp h0, h1⟩)⟩
  rw [if_neg h1]
  by_cases h2 : d < 90 + l
  · exact ⟨2, if_pos h2, Or.inr (Or.inr (Or.inl ⟨rfl, not_lt.mp h1, h2⟩))⟩
  rw [if_neg h2]
  by_cases h3 : d < 120 + l
  · exact ⟨3, if_pos h3, Or.inr (Or.inr (Or.inr (Or.inl ⟨rfl, not_lt.mp h2, h3⟩)))⟩
  rw [if_neg h3]
  by_cases h4 : d < 151 + l
  · exact ⟨4, if_pos h4, Or.inr (Or.inr (Or.inr (Or.inr (Or.inl ⟨rfl, not_lt.mp h3, h4⟩))))⟩
  rw [if_neg h4]
  by_cases h5 : d < 181 + l
  · exact ⟨5, if_pos h5, Or.inr (Or.inr (Or.inr (Or.inr (Or.inr (Or.inl ⟨rfl, not_lt.mp h4, h5⟩)))))⟩
  rw [if_neg h5]
  by_cases h6 : d < 212 + l
  · exact ⟨6, if_pos h6, Or.inr (Or.inr (Or.inr (Or.inr (Or.inr (Or.inr (Or.inl ⟨rfl, not_lt.mp h5, h6⟩))))))⟩
  rw [if_neg h6]
  by_cases h7 : d < 243 + l
  · exact ⟨7, if_pos h7, Or.inr (Or.inr (Or.inr (Or.inr (Or.inr (Or.inr (Or.inr (Or.inl ⟨rfl, not_lt.mp h6, h7⟩)))))))⟩
  rw [if_neg h7]
  by_cases h8 : d < 273 + l
  · exact ⟨8, if_pos h8, Or.inr (Or.inr (Or.inr (Or.inr (Or.inr (Or.inr (Or.inr (Or.inr (Or.inl ⟨rfl, not_lt.mp h7, h8⟩))))))))⟩
  rw [if_neg h8]
  by_cases h9 : d < 304 + l
  · exact ⟨9, if_pos h9, Or.inr (Or.inr (Or.inr (Or.inr (Or.inr (Or.inr (Or.inr (Or.inr (Or.inr (Or.inl ⟨rfl, not_lt.mp h8, h9⟩)))))))))⟩
  rw [if_neg h9]
  by_cases h10 : d < 334 + l
  · exact ⟨10, if_pos h10, Or.inr (Or.inr (Or.inr (Or.inr (Or.inr (Or.inr (Or.inr (Or.inr (Or.inr (Or.inr (Or.inl ⟨rfl, not_lt.mp h9, h10⟩))))))))))⟩
  rw [if_neg h10]
  exact ⟨11, rfl, Or.inr (Or.inr (Or.inr (Or.inr (Or.inr (Or.inr (Or.inr (Or.inr (Or.inr (Or.inr (Or.inr ⟨rfl, not_lt.mp h10⟩))))))))))⟩


theorem month_date_spec (d l : Int) (hl : l = 0 ∨ l = 1) (h0 : 0 ≤ d) (h1 : d < 365 + l) :
    0 ≤ monthOfYearDay d l ∧ monthOfYearDay d l ≤ 11
      ∧ 1 ≤ d - daysBeforeMonth (monthOfYearDay d l) l + 1
      ∧ d - daysBeforeMonth (monthOfYearDay d l) l + 1 ≤ 31
      ∧ (monthOfYearDay d l = 11 → d - daysBeforeMonth (monthOfYearDay d l) l + 1 ≤ 31)
      ∧ (monthOfYearDay d l ≠ 11 → d - daysBeforeMonth (monthOfYearDay d l) l + 1
          ≤ daysBeforeMonth (monthOfYearDay d l + 1) l - daysBeforeMonth (monthOfYearDay d l) l) := by
  obtain ⟨e0, e1, e2, e3, e4, e5, e6, e7, e8, e9, e10, e11⟩ := daysBeforeMonth_lit l
  obtain ⟨m, hm, hc⟩ := monthOfYearDay_cases d l
  rw [hm]
  rcases hc with h | h | h | h | h | h | h | h | h | h | h | h
  all_goals obtain ⟨rfl, hb⟩ := h
  all_goals norm_num only
  all_goals simp only [e0, e1, e2, e3, e4, e5, e6, e7, e8, e9, e10, e11]
  all_goals clear e0 e1 e2 e3 e4 e5 e6 e7 e8 e9 e10 e11 hm
  all_goals norm_num only [true_and, true_implies, false_implies, and_true]
  all_goals omega

theorem parseChars_fields (y : Int) (M D h mi s ms : Nat)
    (hy1 : -999999 ≤ y) (hy2 : y ≤ 999999) (hM1 : 1 ≤ M) (hM2 : M ≤ 12) (hD1 : 1 ≤ D)
    (hD2 : (D : Int) ≤ DaysInMonth y ((M : Int) - 1)) (hD3 : D ≤ 31)
    (hh : h ≤ 23) (hmi : mi ≤ 59) (hs : s ≤ 59) (hms : ms ≤ 999) :
    parseChars (yearChars y ++ '-' :: (padDigits 2 M ++ '-' :: (padDigits 2 D
      ++ 'T' :: (padDigits 2 h ++ ':' :: (padDigits 2 mi ++ ':' :: (padDigits 2 s
      ++ '.' :: (padDigits 3 ms ++ ['Z'])))))))
      = some (TimeClip (MakeDate (MakeDay y ((M : Int) - 1) D) (MakeTime h mi s ms) - 0)) := by
  unfold parseChars
  rw [readYear_yearChars y _ hy1 hy2]
  simp only [Option.some_bind]
  rw [readSep_padDigits (Char.ofNat 45) 2 M _ (by omega)]
  simp only []
  rw [readSep_padDigits (Char.ofNat 45) 2 D _ (by omega)]
  simp only [hM1, hM2, hD1, hD2, and_self, if_true]
  rw [readTime_padDigits h mi s ms _ hh hmi hs hms]
  simp [readZone]

theorem makeTime_fields (t : Int) :
    MakeTime ((HourFromTime t).toNat : Int) ((MinFromTime t).toNat : Int)
      ((SecFromTime t).toNat : Int) ((msFromTime t).toNat : Int) = t % 86400000 := by
  unfold MakeTime HourFromTime MinFromTime SecFromTime msFromTime
  omega

theorem makeDay_fields (t : Int) :
    0 ≤ MonthFromTime t ∧ MonthFromTime t ≤ 11 ∧ 1 ≤ DateFromTime t ∧ DateFromTime t ≤ 31
      ∧ DateFromTime t ≤ DaysInMonth (YearFromTime t) (MonthFromTime t)
      ∧ MakeDay (YearFromTime t) (MonthFromTime t) (DateFromTime t) = Day t := by
  have hs := yearFromDay_spec (Day t)
  rw [dayFromYear_succ] at hs
  have hl := leapDays_range (YearFromDay (Day t))
  have hm := month_date_spec (DayWithinYear t) (InLeapYear t) hl
    (by unfold DayWithinYear YearFromTime; omega)
    (by unfold DayWithinYear InLeapYear YearFromTime; omega)
  obtain ⟨m0, m11, d1, d31, dlast, dmid⟩ := hm
  refine ⟨m0, m11, d1, d31, ?_, ?_⟩
  · unfold DaysInMonth
    by_cases hc : MonthFromTime t = 11
    · rw [if_pos hc]; exact dlast hc
    · rw [if_neg hc]; exact dmid hc
  · have e1 : MonthFromTime t / 12 = 0 := by
      have := m0; have := m11
      unfold MonthFromTime at *
      omega
    have e2 : MonthFromTime t % 12 = MonthFromTime t := by
      have := m0; have := m11
      unfold MonthFromTime at *
      omega
    unfold MakeDay
    simp only [e1, e2, add_zero]
    unfold DateFromTime DayWithinYear InLeapYear
    ring

theorem parseChars_isoChars (t : Int) (h1 : -8640000000000000 ≤ t) (h2 : t ≤ 8640000000000000) :
    parseChars (isoChars t) = some (some t) := by
  obtain ⟨m0, m11, d1, d31, dmax, hday⟩ := makeDay_fields t
  have hy := yearFromDay_range (Day t) (by unfold Day msPerDay; omega) (by unfold Day msPerDay; omega)
  have eM : (((MonthFromTime t + 1).toNat : Nat) : Int) - 1 = MonthFromTime t := by omega
  have eD : (((DateFromTime t).toNat : Nat) : Int) = DateFromTime t := by omega
  unfold isoChars
  simp only [List.append_assoc, List.cons_append, List.nil_append]
  rw [parseChars_fields (YearFromTime t) (MonthFromTime t + 1).toNat (DateFromTime t).toNat
    (HourFromTime t).toNat (MinFromTime t).toNat (SecFromTime t).toNat (msFromTime t).toNat
    (by unfold YearFromTime; omega) (by unfold YearFromTime; omega) (by omega) (by omega)
    (by omega) (by rw [eM, eD]; exact dmax) (by omega)
    (by unfold HourFromTime; omega) (by unfold MinFromTime; omega)
    (by unfold SecFromTime; omega) (by unfold msFromTime; omega)]
  rw [eM, eD, hday, makeTime_fields]
  have e : MakeDate (Day t) (t % 86400000) - 0 = t := by
    unfold MakeDate Day msPerDay
    omega
  rw [e]
  unfold TimeClip
  rw [if_neg (by omega)]

-- ---------------------------------------------------------------------------
-- Frame lemmas: what the helpers leave alone
-- ---------------------------------------------------------------------------

@[simp] theorem updateAuthStatus_notes (s : State) (m : String) (a : Bool) :
    (updateAuthStatus s m a).notes = s.notes := by
  unfold updateAuthStatus; split <;> rfl

@[simp] theorem updateAuthStatus_currentUser (s : State) (m : String) (a : Bool) :
    (updateAuthStatus s m a).currentUser = s.currentUser := by
  unfold updateAuthStatus; split <;> rfl

@[simp] theorem updateAuthStatus_isSyncing (s : State) (m : String) (a : Bool) :
    (updateAuthStatus s m a).isSyncing = s.isSyncing := by
  unfold updateAuthStatus; split <;> rfl

@[simp] theorem updateAuthStatus_editingNoteId (s : State) (m : String) (a : Bool) :
    (updateAuthStatus s m a).editingNoteId = s.editingNoteId := by
  unfold updateAuthStatus; split <;> rfl

@[simp] theorem updateAuthStatus_view (s : State) (m : String) (a : Bool) :
    (updateAuthStatus s m a).view = s.view := by
  unfold updateAuthStatus; split <;> rfl

theorem updateAuthStatus_authMsg (s : State) (m : String) (a : Bool) :
    (updateAuthStatus s m a).authMsg = s.authMsg.map fun _ => ⟨m, decide (m = "")⟩ := by
  unfold updateAuthStatus; split <;> simp_all

theorem updateAuthStatus_persistent (s : State) (m : String) (hs : s.authMsg ≠ none) :
    (updateAuthStatus s m false).authMsg = some ⟨m, decide (m = "")⟩
      ∧ (updateAuthStatus s m false).statusTimer = none := by
  unfold updateAuthStatus
  split
  · contradiction
  · simp

theorem append_ne_empty (a b : String) (h : a ≠ "") : a ++ b ≠ "" := by
  intro e
  apply h
  have e2 := congrArg String.data e
  rw [String.data_append] at e2
  have e3 : a.data = [] := (List.append_eq_nil.mp e2).1
  exact String.ext e3

@[simp] theorem render_notes (s : State) : (render s).notes = s.notes := rfl

@[simp] theorem render_currentUser (s : State) : (render s).currentUser = s.currentUser := rfl

@[simp] theorem render_isSyncing (s : State) : (render s).isSyncing = s.isSyncing := rfl

@[simp] theorem render_editingNoteId (s : State) :
    (render s).editingNoteId = s.editingNoteId := rfl

@[simp] theorem render_authMsg (s : State) : (render s).authMsg = s.authMsg := rfl

@[simp] theorem updateAuthUI_notes (s : State) (u : Option User) :
    (updateAuthUI s u).notes = s.notes := rfl

@[simp] theorem updateAuthUI_currentUser (s : State) (u : Option User) :
    (updateAuthUI s u).currentUser = s.currentUser := rfl

@[simp] theorem updateAuthUI_isSyncing (s : State) (u : Option User) :
    (updateAuthUI s u).isSyncing = s.isSyncing := rfl

@[simp] theorem updateAuthUI_authMsg (s : State) (u : Option User) :
    (updateAuthUI s u).authMsg = s.authMsg := rfl

@[simp] theorem setButtonLoading_notes (s : State) (b : Bool) :
    (setButtonLoading s b).notes = s.notes := rfl

@[simp] theorem setButtonLoading_currentUser (s : State) (b : Bool) :
    (setButtonLoading s b).currentUser = s.currentUser := rfl

@[simp] theorem setButtonLoading_isSyncing (s : State) (b : Bool) :
    (setButtonLoading s b).isSyncing = s.isSyncing := rfl

@[simp] theorem setButtonLoading_authMsg (s : State) (b : Bool) :
    (setButtonLoading s b).authMsg = s.authMsg := rfl

@[simp] theorem closeModal_notes (s : State) : (closeModal s).notes = s.notes := rfl

@[simp] theorem closeModal_isSyncing (s : State) : (closeModal s).isSyncing = s.isSyncing := rfl

@[simp] theorem closeModal_authMsg (s : State) : (closeModal s).authMsg = s.authMsg := rfl

@[simp] theorem closeModal_editingNoteId (s : State) : (closeModal s).editingNoteId = none := rfl

@[simp] theorem openModal_isSyncing (s : State) (n : Option Note) :
    (openModal s n).isSyncing = s.isSyncing := rfl

@[simp] theorem openModal_notes (s : State) (n : Option Note) :
    (openModal s n).notes = s.notes := rfl

-- ---------------------------------------------------------------------------
-- What each handler does to isSyncing
-- ---------------------------------------------------------------------------

theorem applySessionResume_isSyncing (host : String → Option Int) (s : State)
    (r : Except JsError (Option (List Row))) :
    (applySessionResume host s r).isSyncing = false := rfl

theorem applySessionResume_currentUser (host : String → Option Int) (s : State)
    (r : Except JsError (Option (List Row))) :
    (applySessionResume host s r).currentUser = s.currentUser := by
  unfold applySessionResume cloudLoadNotes
  cases r with
  | error e => simp
  | ok data => simp

theorem noteFormSubmitResume_isSyncing (s : State) (r : Except JsError Unit) :
    (noteFormSubmitResume s r).isSyncing = s.isSyncing := by
  unfold noteFormSubmitResume
  split <;> simp

theorem noteFormSubmitBegin_signedOut (s : State) (newId : String) (now : Int)
    (hu : s.currentUser = none) :
    noteFormSubmitBegin s newId now = { state := s, calls := [], pending := none } := by
  unfold noteFormSubmitBegin
  rw [hu]

theorem noteFormSubmitBegin_syncing (s : State) (newId : String) (now : Int)
    (hs : s.isSyncing = true) :
    noteFormSubmitBegin s newId now = { state := s, calls := [], pending := none } := by
  unfold noteFormSubmitBegin
  split
  · rfl
  · rw [if_pos hs]

theorem noteFormSubmitBegin_blank (s : State) (newId : String) (now : Int) (user : User)
    (hu : s.currentUser = some user) (hs : s.isSyncing = false)
    (hb : trim s.noteTitleInput = "" ∨ trim s.noteContentInput = "") :
    noteFormSubmitBegin s newId now
      = { state := updateAuthStatus s "Title and content are required." true
          calls := [], pending := none } := by
  unfold noteFormSubmitBegin
  rw [hu]
  simp only [hs, Bool.false_eq_true, if_false, hb, if_true]

theorem noteFormSubmitBegin_create (s : State) (newId : String) (now : Int) (user : User)
    (hu : s.currentUser = some user) (hs : s.isSyncing = false)
    (ht : trim s.noteTitleInput ≠ "") (hc : trim s.noteContentInput ≠ "")
    (he : truthy s.editingNoteId = false) :
    noteFormSubmitBegin s newId now
      = match addNotePayload user
            { id := newId, title := trim s.noteTitleInput, content := trim s.noteContentInput,
              created := some now } with
        | .ok payload =>
          { state := { updateAuthStatus s "Saving note..." false with
                       notes := { id := newId, title := trim s.noteTitleInput,
                                  content := trim s.noteContentInput, created := some now }
                                :: (updateAuthStatus s "Saving note..." false).notes }
            calls := [RemoteCall.insert payload], pending := some Pending.save }
        | .error err =>
          { state := noteFormSubmitResume
              { updateAuthStatus s "Saving note..." false with
                notes := { id := newId, title := trim s.noteTitleInput,
                           content := trim s.noteContentInput, created := some now }
                         :: (updateAuthStatus s "Saving note..." false).notes } (.error err)
            calls := [], pending := none } := by
  have he1 : ∀ m, truthy (updateAuthStatus s m false).editingNoteId = false := by
    intro m; rw [updateAuthStatus_editingNoteId]; exact he
  unfold noteFormSubmitBegin
  rw [hu]
  simp only [hs, Bool.false_eq_true, if_false, ht, hc, or_self, he, he1]

theorem noteFormSubmitBegin_edit (s : State) (newId : String) (now : Int) (user : User)
    (hu : s.currentUser = some user) (hs : s.isSyncing = false)
    (ht : trim s.noteTitleInput ≠ "") (hc : trim s.noteContentInput ≠ "")
    (he : truthy s.editingNoteId = true) :
    noteFormSubmitBegin s newId now
      = match (updateAuthStatus s "Updating note..." false).notes.find?
            (fun n => decide
              (n.id = (updateAuthStatus s "Updating note..." false).editingNoteId.getD "")) with
        | some existing =>
          { state := { updateAuthStatus s "Updating note..." false with
                       notes := updateFirst
                         ((updateAuthStatus s "Updating note..." false).editingNoteId.getD "")
                         (trim s.noteTitleInput) (trim s.noteContentInput)
                         (updateAuthStatus s "Updating note..." false).notes }
            calls := [RemoteCall.update existing.id user.id (trim s.noteTitleInput)
                        (trim s.noteContentInput)]
            pending := some Pending.save }
        | none =>
          { state := noteFormSubmitResume (updateAuthStatus s "Updating note..." false) (.ok ())
            calls := [], pending := none } := by
  have he1 : ∀ m, truthy (updateAuthStatus s m false).editingNoteId = true := by
    intro m; rw [updateAuthStatus_editingNoteId]; exact he
  unfold noteFormSubmitBegin
  rw [hu]
  simp only [hs, Bool.false_eq_true, if_false, ht, hc, or_self, he, he1, if_true]

theorem noteFormSubmitBegin_isSyncing (s : State) (newId : String) (now : Int) :
    (noteFormSubmitBegin s newId now).state.isSyncing = s.isSyncing
      ∧ (noteFormSubmitBegin s newId now).pending ≠ some Pending.load := by
  cases hu : s.currentUser with
  | none => rw [noteFormSubmitBegin_signedOut s newId now hu]; simp
  | some user =>
    cases hs : s.isSyncing with
    | true => rw [noteFormSubmitBegin_syncing s newId now hs]; simp [hs]
    | false =>
      by_cases hb : trim s.noteTitleInput = "" ∨ trim s.noteContentInput = ""
      · rw [noteFormSubmitBegin_blank s newId now user hu hs hb]; simp [hs]
      · have ht : trim s.noteTitleInput ≠ "" := fun h => hb (Or.inl h)
        have hc : trim s.noteContentInput ≠ "" := fun h => hb (Or.inr h)
        cases he : truthy s.editingNoteId with
        | false =>
          rw [noteFormSubmitBegin_create s newId now user hu hs ht hc he]
          split <;> simp [noteFormSubmitResume_isSyncing, hs]
        | true =>
          rw [noteFormSubmitBegin_edit s newId now user hu hs ht hc he]
          split <;> simp [noteFormSubmitResume_isSyncing, hs]

theorem deleteBtnClickBegin_isSyncing (s : State) (noteId : String) (c : Bool) :
    (deleteBtnClickBegin s noteId c).state.isSyncing = s.isSyncing
      ∧ (deleteBtnClickBegin s noteId c).pending ≠ some Pending.load := by
  unfold deleteBtnClickBegin
  split
  · simp
  · split_ifs <;> simp

theorem deleteBtnClickResume_isSyncing (s : State) (noteId : String) (r : Except JsError Unit) :
    (deleteBtnClickResume s noteId r).isSyncing = s.isSyncing := by
  unfold deleteBtnClickResume
  split <;> simp

theorem performSignOutResume_isSyncing (s : State) (r : Except JsError Unit) :
    (performSignOutResume s r).isSyncing = s.isSyncing := by
  unfold performSignOutResume
  split
  · simp
  · split_ifs <;> simp

theorem statusTimerFires_isSyncing (s : State) : (statusTimerFires s).isSyncing = s.isSyncing := by
  unfold statusTimerFires
  split
  · rfl
  · split
    · rfl
    · split_ifs <;> rfl

theorem createNoteBtnClick_isSyncing (s : State) :
    (createNoteBtnClick s).isSyncing = s.isSyncing := by
  unfold createNoteBtnClick
  split <;> simp

theorem editBtnClick_isSyncing (s : State) (n : Note) :
    (editBtnClick s n).isSyncing = s.isSyncing := by
  unfold editBtnClick
  split <;> simp

theorem applySessionBegin_syncing (s : State) (session : Option Session)
    (h : s.isSyncing = true) :
    applySessionBegin s session = { state := s, calls := [], pending := none } := by
  unfold applySessionBegin
  rw [if_pos h]

theorem applySessionBegin_idle (s : State) (session : Option Session)
    (h : s.isSyncing = false) :
    ((applySessionBegin s session).pending = some Pending.load
        ∧ (applySessionBegin s session).state.isSyncing = true)
      ∨ ((applySessionBegin s session).pending = none
        ∧ (applySessionBegin s session).state.isSyncing = false) := by
  unfold applySessionBegin
  rw [if_neg (by simp [h])]
  simp only
  split
  · left; simp
  · right; simp

theorem count_eraseIdx_get (l : List Pending) (i : Nat) (k a : Pending)
    (h : l.get? i = some k) :
    (l.eraseIdx i).count a + (if k = a then 1 else 0) = l.count a := by
  induction l generalizing i with
  | nil => simp at h
  | cons x xs ih =>
    cases i with
    | zero =>
      simp only [List.get?_cons_zero, Option.some.injEq] at h
      subst h
      simp only [List.eraseIdx_cons_zero, List.count_cons, beq_iff_eq]
    | succ j =>
      simp only [List.get?_cons_succ] at h
      have := ih j h
      simp only [List.eraseIdx_cons_succ, List.count_cons]
      omega

theorem count_of_get (l : List Pending) (i : Nat) (k : Pending) (h : l.get? i = some k) :
    1 ≤ l.count k := by
  have := count_eraseIdx_get l i k k h
  simp only [if_true] at this
  omega

-- ---------------------------------------------------------------------------
-- The reconciliation guard
-- ---------------------------------------------------------------------------

theorem after_inFlight (p : Page) (st : Step) :
    (p.after st).inFlight = p.inFlight + (if st.pending = some Pending.load then 1 else 0) := by
  unfold Page.after Page.inFlight
  cases hp : st.pending with
  | none => simp
  | some k =>
    by_cases hk : k = Pending.load
    · subst hk; simp
    · simp [hk, List.count_cons]

theorem consistent_after (p : Page) (st : Step) (hc : p.Consistent)
    (h1 : st.state.isSyncing = p.state.isSyncing) (h2 : st.pending ≠ some Pending.load) :
    (p.after st).Consistent := by
  unfold Page.Consistent at *
  rw [after_inFlight, if_neg h2, hc]
  have : (p.after st).state = st.state := rfl
  rw [this, h1]
  rfl

theorem consistent_initial (authMsg : Option AuthMsg) : (initialPage authMsg).Consistent := by
  unfold Page.Consistent Page.inFlight initialPage initialState
  simp

theorem consistent_step (host : String → Option Int) (p : Page) (e : Event)
    (hc : p.Consistent) : (p.step host e).Consistent := by
  cases e with
  | sessionChange session =>
    show (p.after (applySessionBegin p.state session)).Consistent
    cases hs : p.state.isSyncing with
    | true =>
      rw [applySessionBegin_syncing p.state session hs]
      exact consistent_after p _ hc rfl (by simp)
    | false =>
      unfold Page.Consistent at *
      rw [after_inFlight, hc, hs]
      have e : (p.after (applySessionBegin p.state session)).state
          = (applySessionBegin p.state session).state := rfl
      rw [e]
      rcases applySessionBegin_idle p.state session hs with ⟨h1, h2⟩ | ⟨h1, h2⟩
      · rw [h1, h2]; simp
      · rw [h1, h2]; simp
  | submit newId now =>
    have h := noteFormSubmitBegin_isSyncing p.state newId now
    exact consistent_after p _ hc h.1 h.2
  | typeTitle text => exact hc
  | typeContent text => exact hc
  | createClick =>
    unfold Page.Consistent at *
    show p.inFlight = if (createNoteBtnClick p.state).isSyncing = true then 1 else 0
    rw [createNoteBtnClick_isSyncing]; exact hc
  | editClick note =>
    unfold Page.Consistent at *
    show p.inFlight = if (editBtnClick p.state note).isSyncing = true then 1 else 0
    rw [editBtnClick_isSyncing]; exact hc
  | closeClick => exact hc
  | deleteClick noteId confirmed =>
    have h := deleteBtnClickBegin_isSyncing p.state noteId confirmed
    exact consistent_after p _ hc h.1 h.2
  | signOutClick =>
    exact consistent_after p _ hc (by simp [performSignOutBegin]) (by simp [performSignOutBegin])
  | statusTimer =>
    unfold Page.Consistent at *
    show p.inFlight = if (statusTimerFires p.state).isSyncing = true then 1 else 0
    rw [statusTimerFires_isSyncing]; exact hc
  | settle index outcome =>
    show (match p.pending.get? index with
      | none => p
      | some k =>
        match resume host p.state k outcome with
        | none => p
        | some s => { p with state := s, pending := p.pending.eraseIdx index }).Consistent
    cases hk : p.pending.get? index with
    | none => exact hc
    | some k =>
      show (match resume host p.state k outcome with
        | none => p
        | some s => { p with state := s, pending := p.pending.eraseIdx index }).Consistent
      cases hr : resume host p.state k outcome with
      | none => exact hc
      | some s =>
        show ({ p with state := s, pending := p.pending.eraseIdx index } : Page).Consistent
        have hcount := count_eraseIdx_get p.pending index k Pending.load hk
        unfold Page.Consistent Page.inFlight at *
        simp only
        cases k with
        | load =>
          cases outcome with
          | listed r =>
            simp only [resume, Option.some.injEq] at hr
            subst hr
            rw [applySessionResume_isSyncing]
            simp only [if_true] at hcount
            have h1 := count_of_get p.pending index Pending.load hk
            split_ifs at hc <;> simp <;> omega
          | written r => simp [resume] at hr
          | signedOut o => simp [resume] at hr
        | save =>
          cases outcome with
          | listed r => simp [resume] at hr
          | written r =>
            simp only [resume, Option.some.injEq] at hr
            subst hr
            rw [noteFormSubmitResume_isSyncing]
            simp at hcount
            rw [hcount]; exact hc
          | signedOut o => simp [resume] at hr
        | remove noteId =>
          cases outcome with
          | listed r => simp [resume] at hr
          | written r =>
            simp only [resume, Option.some.injEq] at hr
            subst hr
            rw [deleteBtnClickResume_isSyncing]
            simp at hcount
            rw [hcount]; exact hc
          | signedOut o => simp [resume] at hr
        | signOut =>
          cases outcome with
          | listed r => simp [resume] at hr
          | written r => simp [resume] at hr
          | signedOut o =>
            simp only [resume, Option.some.injEq] at hr
            subst hr
            rw [performSignOutResume_isSyncing]
            simp at hcount
            rw [hcount]; exact hc

theorem consistent_run (host : String → Option Int) (events : List Event) :
    ∀ p : Page, p.Consistent → (p.run host events).Consistent := by
  induction events with
  | nil => intro p hc; exact hc
  | cons e es ih => intro p hc; exact ih (p.step host e) (consistent_step host p e hc)

theorem consistent_inFlight_le (p : Page) (hc : p.Consistent) : p.inFlight ≤ 1 := by
  unfold Page.Consistent at hc
  rw [hc]
  split_ifs <;> omega

/-- C1. A reconciliation trigger that arrives while isSyncing is set is dropped:
applySession returns at once, issues no remote call (in particular no list query),
suspends nothing and leaves the whole state (currentUser, notes, editingNoteId, the
status region, isSyncing) as it was; delivered to the page as an event it changes
nothing. As a consequence, from page load on and under every sequence of events,
at most one reconciliation pass is suspended at its load query. -/
theorem applySession_dropped_while_syncing (host : String → Option Int) (s : State)
    (session : Option Session)
    (result : Except JsError (Option (List Row))) (h : s.isSyncing = true) :
    applySessionBegin s session = { state := s, calls := [], pending := none }
      ∧ applySession host s session result = (s, [])
      ∧ (∀ p : Page, p.state = s → p.step host (Event.sessionChange session) = p)
      ∧ (∀ (authMsg : Option AuthMsg) (events : List Event),
          ((initialPage authMsg).run host events).inFlight ≤ 1) := by
  have hb := applySessionBegin_syncing s session h
  refine ⟨hb, ?_, ?_, ?_⟩
  · unfold applySession
    rw [hb]
  · intro p hp
    subst hp
    show p.after (applySessionBegin p.state session) = p
    rw [hb]
    simp [Page.after]
  · intro authMsg events
    exact consistent_inFlight_le _ (consistent_run host events _ (consistent_initial authMsg))

theorem applySession_dropped_while_syncing_witness :
    (applySessionBegin (initialState none) (some ⟨some ⟨"u1", none⟩⟩)).state.isSyncing = true
      ∧ applySession strictHost
          (applySessionBegin (initialState none) (some ⟨some ⟨"u1", none⟩⟩)).state
          none (.ok none)
        = ((applySessionBegin (initialState none) (some ⟨some ⟨"u1", none⟩⟩)).state, []) :=
  ⟨by decide, (applySession_dropped_while_syncing strictHost _ none (.ok none) (by decide)).2.1⟩

-- ---------------------------------------------------------------------------
-- What runs while a load query is awaited
-- ---------------------------------------------------------------------------

@[simp] theorem openModal_currentUser (s : State) (n : Option Note) :
    (openModal s n).currentUser = s.currentUser := rfl

@[simp] theorem closeModal_currentUser (s : State) :
    (closeModal s).currentUser = s.currentUser := rfl

theorem noteFormSubmitResume_currentUser (s : State) (r : Except JsError Unit) :
    (noteFormSubmitResume s r).currentUser = s.currentUser := by
  unfold noteFormSubmitResume
  split <;> simp

theorem deleteBtnClickResume_currentUser (s : State) (noteId : String)
    (r : Except JsError Unit) :
    (deleteBtnClickResume s noteId r).currentUser = s.currentUser := by
  unfold deleteBtnClickResume
  split <;> simp

theorem deleteBtnClickBegin_currentUser (s : State) (noteId : String) (c : Bool) :
    (deleteBtnClickBegin s noteId c).state.currentUser = s.currentUser := by
  unfold deleteBtnClickBegin
  split
  · simp
  · split_ifs <;> rfl

theorem statusTimerFires_currentUser (s : State) :
    (statusTimerFires s).currentUser = s.currentUser := by
  unfold statusTimerFires
  split
  · rfl
  · split
    · rfl
    · split_ifs <;> rfl

theorem createNoteBtnClick_currentUser (s : State) :
    (createNoteBtnClick s).currentUser = s.currentUser := by
  unfold createNoteBtnClick
  split <;> simp

theorem editBtnClick_currentUser (s : State) (n : Note) :
    (editBtnClick s n).currentUser = s.currentUser := by
  unfold editBtnClick
  split <;> simp

theorem step_while_loading (host : String → Option Int) (p : Page) (e : Event)
    (hs : p.state.isSyncing = true) (hq : p.resumesLoadOrSignOut e = false) :
    (p.step host e).state.isSyncing = true
      ∧ (p.step host e).state.currentUser = p.state.currentUser := by
  cases e with
  | sessionChange session =>
    show (p.after (applySessionBegin p.state session)).state.isSyncing = true
      ∧ (p.after (applySessionBegin p.state session)).state.currentUser = p.state.currentUser
    rw [applySessionBegin_syncing p.state session hs]
    exact ⟨hs, rfl⟩
  | submit newId now =>
    show (p.after (noteFormSubmitBegin p.state newId now)).state.isSyncing = true
      ∧ (p.after (noteFormSubmitBegin p.state newId now)).state.currentUser
          = p.state.currentUser
    rw [noteFormSubmitBegin_syncing p.state newId now hs]
    exact ⟨hs, rfl⟩
  | typeTitle text => exact ⟨hs, rfl⟩
  | typeContent text => exact ⟨hs, rfl⟩
  | createClick =>
    exact ⟨(createNoteBtnClick_isSyncing p.state).trans hs, createNoteBtnClick_currentUser p.state⟩
  | editClick note =>
    exact ⟨(editBtnClick_isSyncing p.state note).trans hs, editBtnClick_currentUser p.state note⟩
  | closeClick => exact ⟨hs, rfl⟩
  | deleteClick noteId confirmed =>
    exact ⟨((deleteBtnClickBegin_isSyncing p.state noteId confirmed).1).trans hs,
      deleteBtnClickBegin_currentUser p.state noteId confirmed⟩
  | signOutClick =>
    show (performSignOutBegin p.state).state.isSyncing = true
      ∧ (performSignOutBegin p.state).state.currentUser = p.state.currentUser
    simp [performSignOutBegin, hs]
  | statusTimer =>
    exact ⟨(statusTimerFires_isSyncing p.state).trans hs, statusTimerFires_currentUser p.state⟩
  | settle index outcome =>
    show (match p.pending.get? index with
      | none => p
      | some k =>
        match resume host p.state k outcome with
        | none => p
        | some s => { p with state := s, pending := p.pending.eraseIdx index }).state.isSyncing
          = true
      ∧ (match p.pending.get? index with
      | none => p
      | some k =>
        match resume host p.state k outcome with
        | none => p
        | some s => { p with state := s, pending := p.pending.eraseIdx index }).state.currentUser
          = p.state.currentUser
    have hq2 : (p.pending.get? index == some Pending.load
        || p.pending.get? index == some Pending.signOut) = false := hq
    cases hk : p.pending.get? index with
    | none => exact ⟨hs, rfl⟩
    | some k =>
      rw [hk] at hq2
      cases k with
      | load => simp at hq2
      | signOut => simp at hq2
      | save =>
        cases outcome with
        | listed r => exact ⟨hs, rfl⟩
        | signedOut o => exact ⟨hs, rfl⟩
        | written r =>
          exact ⟨(noteFormSubmitResume_isSyncing p.state r).trans hs,
            noteFormSubmitResume_currentUser p.state r⟩
      | remove noteId =>
        cases outcome with
        | listed r => exact ⟨hs, rfl⟩
        | signedOut o => exact ⟨hs, rfl⟩
        | written r =>
          exact ⟨(deleteBtnClickResume_isSyncing p.state noteId r).trans hs,
            deleteBtnClickResume_currentUser p.state noteId r⟩

theorem run_while_loading (host : String → Option Int) (events : List Event) :
    ∀ p : Page, p.state.isSyncing = true → p.undisturbed host events = true →
      (p.run host events).state.isSyncing = true
        ∧ (p.run host events).state.currentUser = p.state.currentUser := by
  induction events with
  | nil => intro p hs _; exact ⟨hs, rfl⟩
  | cons e es ih =>
    intro p hs hu
    have hu2 : (!p.resumesLoadOrSignOut e && (p.step host e).undisturbed host es) = true := hu
    simp only [Bool.and_eq_true, Bool.not_eq_true'] at hu2
    have h1 := step_while_loading host p e hs hu2.1
    have h2 := ih (p.step host e) h1.1 hu2.2
    exact ⟨h2.1, h2.2.trans h1.2⟩

theorem applySessionBegin_currentUser (s : State) (session : Option Session)
    (h : s.isSyncing = false) :
    (applySessionBegin s session).state.currentUser = sessionUser session := by
  unfold applySessionBegin
  rw [if_neg (by simp [h])]
  simp only [updateAuthUI_currentUser]
  cases hu : sessionUser session with
  | none => simp
  | some u => simp

theorem settle_load (host : String → Option Int) (p : Page) (index : Nat)
    (result : Except JsError (Option (List Row)))
    (hk : p.pending.get? index = some Pending.load) :
    (p.step host (Event.settle index (Outcome.listed result))).state
      = applySessionResume host p.state result := by
  show (match p.pending.get? index with
    | none => p
    | some k =>
      match resume host p.state k (Outcome.listed result) with
      | none => p
      | some s => { p with state := s, pending := p.pending.eraseIdx index }).state
        = applySessionResume host p.state result
  rw [hk]
  rfl

/-- C2, as stated, fails: a reconciliation for the session of u1 starts with isSyncing
unset and awaits its load query; the user clicks sign out and the remote sign-out
resolves, which sets currentUser to null; the signed-out session reported by the
provider is dropped by the guard; then the load query delivers its row and the call
completes. isSyncing is unset, but currentUser is null and not the user of the
session the call was given, while the notes of u1 are in the note sequence. -/
theorem applySession_signOut_race_counterexample :
    (initialPage (some ⟨"", true⟩)).state.isSyncing = false
      ∧ sessionUser (some ⟨some ⟨"u1", some "a@b.com"⟩⟩) = some ⟨"u1", some "a@b.com"⟩
      ∧ ((initialPage (some ⟨"", true⟩)).run strictHost signOutDuringLoad).pending = []
      ∧ ((initialPage (some ⟨"", true⟩)).run strictHost signOutDuringLoad).calls
          = [RemoteCall.list "u1", RemoteCall.signOut]
      ∧ ((initialPage (some ⟨"", true⟩)).run strictHost signOutDuringLoad).state.isSyncing
          = false
      ∧ ((initialPage (some ⟨"", true⟩)).run strictHost signOutDuringLoad).state.currentUser
          = none
      ∧ ((initialPage (some ⟨"", true⟩)).run strictHost signOutDuringLoad).state.notes
          = [⟨"n1", "Groceries", "milk", some 1730754000123⟩] := by
  decide

/-- C2, amended. The reconciler always returns to Idle: an applySession call that starts
with isSyncing unset sets currentUser to the user of the session (null when there is
none) before it issues the load query, and for every session and every outcome of
the load query (data, null data, or an error with any message) the call completes
with isSyncing unset, whatever ran while the query was awaited: the rest of
applySession unsets the flag from every state and leaves currentUser as it finds it.
The call completes with currentUser equal to the user of the session when nothing
runs during the await, and more generally when no sign-out completes during the
await: on the page, after the trigger has suspended at its load query, every
sequence of events that resumes neither that query nor a sign-out, followed by the
settling of the query, ends with isSyncing unset and currentUser equal to the user
of the session. -/
theorem applySession_returns_to_idle (host : String → Option Int) (s : State)
    (session : Option Session)
    (result : Except JsError (Option (List Row))) (h : s.isSyncing = false) :
    (applySessionBegin s session).state.currentUser = sessionUser session
      ∧ (applySession host s session result).1.isSyncing = false
      ∧ (applySession host s session result).1.currentUser = sessionUser session
      ∧ (∀ mid : State, (applySessionResume host mid result).isSyncing = false
          ∧ (applySessionResume host mid result).currentUser = mid.currentUser)
      ∧ (∀ (p : Page) (events : List Event) (index : Nat), p.state = s →
          (p.step host (Event.sessionChange session)).state.isSyncing = true →
          (p.step host (Event.sessionChange session)).undisturbed host events = true →
          ((p.step host (Event.sessionChange session)).run host events).pending.get? index
            = some Pending.load →
          ((((p.step host (Event.sessionChange session)).run host events).step host
              (Event.settle index (Outcome.listed result))).state.isSyncing = false
            ∧ (((p.step host (Event.sessionChange session)).run host events).step host
              (Event.settle index (Outcome.listed result))).state.currentUser
                = sessionUser session)) := by
  have hb := applySessionBegin_currentUser s session h
  refine ⟨hb, ?_, ?_, ?_, ?_⟩
  · unfold applySession
    rcases applySessionBegin_idle s session h with ⟨h1, _⟩ | ⟨h1, h2⟩
    · simp only [h1]; exact applySessionResume_isSyncing host _ result
    · simp only [h1]; exact h2
  · unfold applySession
    rcases applySessionBegin_idle s session h with ⟨h1, _⟩ | ⟨h1, _⟩
    · simp only [h1]; rw [applySessionResume_currentUser]; exact hb
    · simp only [h1]; exact hb
  · intro mid
    exact ⟨applySessionResume_isSyncing host mid result,
      applySessionResume_currentUser host mid result⟩
  · intro p events index hp hs hu hk
    subst hp
    have h1 : (p.step host (Event.sessionChange session)).state.currentUser
        = sessionUser session := hb
    have h2 := run_while_loading host events _ hs hu
    rw [settle_load host _ index result hk]
    exact ⟨applySessionResume_isSyncing host _ result,
      (applySessionResume_currentUser host _ result).trans (h2.2.trans h1)⟩

theorem applySession_returns_to_idle_witness :
    (initialState none).isSyncing = false
      ∧ (applySession strictHost (initialState none) (some ⟨some ⟨"u1", none⟩⟩)
            (.error ⟨"network down"⟩)).1.isSyncing = false
      ∧ (applySession strictHost (initialState none) (some ⟨some ⟨"u1", none⟩⟩)
            (.error ⟨"network down"⟩)).1.currentUser
          = sessionUser (some ⟨some ⟨"u1", none⟩⟩)
      ∧ ((((initialPage none).step strictHost
              (Event.sessionChange (some ⟨some ⟨"u1", none⟩⟩))).run strictHost
              [Event.signOutClick, Event.typeTitle "T"]).step strictHost
            (Event.settle 0 (Outcome.listed (.error ⟨"network down"⟩)))).state.currentUser
          = sessionUser (some ⟨some ⟨"u1", none⟩⟩) :=
  ⟨rfl,
   (applySession_returns_to_idle strictHost (initialState none) (some ⟨some ⟨"u1", none⟩⟩)
      (.error ⟨"network down"⟩) rfl).2.1,
   (applySession_returns_to_idle strictHost (initialState none) (some ⟨some ⟨"u1", none⟩⟩)
      (.error ⟨"network down"⟩) rfl).2.2.1,
   ((applySession_returns_to_idle strictHost (initialState none) (some ⟨some ⟨"u1", none⟩⟩)
      (.error ⟨"network down"⟩) rfl).2.2.2.2 (initialPage none)
      [Event.signOutClick, Event.typeTitle "T"] 0 rfl (by decide) (by decide)
      (by decide)).2⟩

-- ---------------------------------------------------------------------------
-- The wire format of created
-- ---------------------------------------------------------------------------

theorem addNotePayload_ok (user : User) (note : Note) (t : Int) (hc : note.created = some t)
    (h1 : -8640000000000000 ≤ t) (h2 : t ≤ 8640000000000000) :
    addNotePayload user note
      = .ok { id := note.id, user_id := user.id, title := note.title, content := note.content,
              created := String.mk (isoChars t) } := by
  have hclip : TimeClip t = some t := by
    unfold TimeClip
    rw [if_neg (by omega)]
  unfold addNotePayload newDate
  rw [hc]
  simp only [Option.some_bind, hclip, toISOString]

theorem rowToNote_isoChars (host : String → Option Int) (user : User) (note : Note) (t : Int)
    (hc : note.created = some t)
    (h1 : -8640000000000000 ≤ t) (h2 : t ≤ 8640000000000000) :
    rowToNote host (payloadRow { id := note.id, user_id := user.id, title := note.title,
                                 content := note.content,
                                 created := String.mk (isoChars t) })
      = note := by
  unfold rowToNote payloadRow dateParse
  simp only [parseChars_isoChars t h1 h2]
  cases note
  simp_all

theorem rowToNote_noteRow (host : String → Option Int) (n : Note) (r : Row)
    (h : noteRow n = some r) : rowToNote host r = n := by
  unfold noteRow newDate at h
  cases hc : n.created with
  | none => simp [hc, toISOString] at h
  | some t =>
    by_cases hr : 8640000000000000 < t.natAbs
    · simp [hc, TimeClip, hr, toISOString] at h
    · simp only [hc, Option.some_bind, TimeClip, if_neg hr, toISOString, Option.some.injEq] at h
      subst h
      exact rowToNote_isoChars host ⟨"", none⟩ n t hc (by omega) (by omega)

theorem map_rowToNote_noteRow (host : String → Option Int) :
    ∀ (stored : List Note) (rows : List Row), rows.map some = stored.map noteRow →
      rows.map (rowToNote host) = stored := by
  intro stored
  induction stored with
  | nil =>
    intro rows h
    cases rows with
    | nil => rfl
    | cons r rs => simp at h
  | cons n ns ih =>
    intro rows h
    cases rows with
    | nil => simp at h
    | cons r rs =>
      simp only [List.map_cons, List.cons.injEq] at h
      simp only [List.map_cons, List.cons.injEq]
      exact ⟨rowToNote_noteRow host n r h.1.symm, ih rs h.2⟩

/-- C5. Insert-then-list round trip: for every note whose created value is an
integral number of epoch milliseconds within the range of Date (at most 8.64e15
from the epoch on either side), cloudAddNote builds a payload (toISOString does not
throw), the payload carries created as the ISO-8601 string of that instant, and
converting the stored row back as cloudLoadNotes does gives the note again: the
same id, title, content and created. -/
theorem insert_then_list_roundtrip (host : String → Option Int) (user : User) (note : Note)
    (t : Int)
    (hc : note.created = some t)
    (h1 : -8640000000000000 ≤ t) (h2 : t ≤ 8640000000000000) :
    ∃ p : Payload, addNotePayload user note = .ok p
      ∧ p.user_id = user.id
      ∧ p.created = String.mk (isoChars t)
      ∧ rowToNote host (payloadRow p) = note :=
  ⟨_, addNotePayload_ok user note t hc h1 h2, rfl, rfl,
    rowToNote_isoChars host user note t hc h1 h2⟩

theorem insert_then_list_roundtrip_witness :
    ((-8640000000000000 : Int) ≤ 1730754000123 ∧ (1730754000123 : Int) ≤ 8640000000000000)
      ∧ ∃ p : Payload,
          addNotePayload ⟨"u1", none⟩ ⟨"n1", "T", "C", some 1730754000123⟩ = .ok p
            ∧ p.user_id = "u1"
            ∧ p.created = String.mk (isoChars 1730754000123)
            ∧ rowToNote strictHost (payloadRow p) = ⟨"n1", "T", "C", some 1730754000123⟩ :=
  ⟨by decide, insert_then_list_roundtrip strictHost ⟨"u1", none⟩ ⟨"n1", "T", "C", some 1730754000123⟩
    1730754000123 rfl (by decide) (by decide)⟩

-- ---------------------------------------------------------------------------
-- Create
-- ---------------------------------------------------------------------------

theorem noteFormSubmitResume_notes (s : State) (r : Except JsError Unit) :
    (noteFormSubmitResume s r).notes = s.notes := by
  unfold noteFormSubmitResume
  split <;> simp

theorem noteFormSubmitBegin_create_ok (s : State) (user : User) (newId : String) (now : Int)
    (hu : s.currentUser = some user) (hs : s.isSyncing = false)
    (he : truthy s.editingNoteId = false)
    (ht : trim s.noteTitleInput ≠ "") (hc : trim s.noteContentInput ≠ "")
    (h1 : -8640000000000000 ≤ now) (h2 : now ≤ 8640000000000000) :
    noteFormSubmitBegin s newId now
      = { state := { updateAuthStatus s "Saving note..." false with
                     notes := { id := newId, title := trim s.noteTitleInput,
                                content := trim s.noteContentInput, created := some now }
                              :: (updateAuthStatus s "Saving note..." false).notes }
          calls := [RemoteCall.insert
            { id := newId, user_id := user.id, title := trim s.noteTitleInput,
              content := trim s.noteContentInput, created := String.mk (isoChars now) }]
          pending := some Pending.save } := by
  rw [noteFormSubmitBegin_create s newId now user hu hs ht hc he,
    addNotePayload_ok user _ now rfl h1 h2]

/-- C3. Create is an optimistic prepend with no rollback: in a signed-in state that is
not reconciling and has no editing target, with a title and a content that are
non-empty after trimming, submitting the note form (id from uid(), created from
Date.now(), a valid time value) puts the new note in front of the previous notes,
which keep their order, and issues exactly one remote call, an insert whose payload
is that note (it reads back as the note, and carries the user id); the handler then
awaits it. Whatever the outcome, the sequence is still the new note followed by the
previous notes; and when the insert fails with reason r the status region shows
"Save failed: r", visible and with no auto-hide timer. -/
theorem create_is_optimistic_prepend (host : String → Option Int) (s : State) (user : User)
    (newId : String) (now : Int)
    (hu : s.currentUser = some user) (hs : s.isSyncing = false) (he : s.editingNoteId = none)
    (ht : trim s.noteTitleInput ≠ "") (hc : trim s.noteContentInput ≠ "")
    (h1 : -8640000000000000 ≤ now) (h2 : now ≤ 8640000000000000)
    (hm : s.authMsg ≠ none) :
    (noteFormSubmitBegin s newId now).state.notes
        = ⟨newId, trim s.noteTitleInput, trim s.noteContentInput, some now⟩ :: s.notes
      ∧ (∃ p : Payload, (noteFormSubmitBegin s newId now).calls = [RemoteCall.insert p]
          ∧ p.user_id = user.id
          ∧ rowToNote host (payloadRow p)
              = ⟨newId, trim s.noteTitleInput, trim s.noteContentInput, some now⟩)
      ∧ (noteFormSubmitBegin s newId now).pending = some Pending.save
      ∧ (∀ result : Except JsError Unit,
          (noteFormSubmit s newId now result).1.notes
            = ⟨newId, trim s.noteTitleInput, trim s.noteContentInput, some now⟩ :: s.notes)
      ∧ (∀ r : JsError,
          (noteFormSubmit s newId now (.error r)).1.authMsg
              = some ⟨"Save failed: " ++ r.message, false⟩
            ∧ (noteFormSubmit s newId now (.error r)).1.statusTimer = none) := by
  have het : truthy s.editingNoteId = false := by rw [he]; rfl
  have hb := noteFormSubmitBegin_create_ok s user newId now hu hs het ht hc h1 h2
  refine ⟨?_, ?_, ?_, ?_, ?_⟩
  · rw [hb]; simp
  · refine ⟨_, by rw [hb], rfl, ?_⟩
    exact rowToNote_isoChars host user
      ⟨newId, trim s.noteTitleInput, trim s.noteContentInput, some now⟩ now rfl h1 h2
  · rw [hb]
  · intro result
    unfold noteFormSubmit
    rw [hb]
    simp [noteFormSubmitResume_notes]
  · intro r
    unfold noteFormSubmit
    rw [hb]
    simp only [noteFormSubmitResume]
    have hm2 : ({ updateAuthStatus s "Saving note..." false with
        notes := ({ id := newId, title := trim s.noteTitleInput,
                    content := trim s.noteContentInput, created := some now } : Note)
                 :: (updateAuthStatus s "Saving note..." false).notes } : State).authMsg
        ≠ none := by
      simp [updateAuthStatus_authMsg, hm]
    have h := updateAuthStatus_persistent _ ("Save failed: " ++ r.message) hm2
    have hne : "Save failed: " ++ r.message ≠ "" := append_ne_empty _ _ (by decide)
    simp only [hne, decide_False] at h
    exact h

theorem create_is_optimistic_prepend_witness :
    (signedInState.currentUser = some ⟨"u1", some "a@b.com"⟩
        ∧ signedInState.isSyncing = false ∧ signedInState.editingNoteId = none
        ∧ trim signedInState.noteTitleInput = "T" ∧ trim signedInState.noteContentInput = "C")
      ∧ (noteFormSubmit signedInState "n2" 1730754060000 (.error ⟨"offline"⟩)).1.notes
          = [⟨"n2", "T", "C", some 1730754060000⟩,
             ⟨"n1", "Groceries", "milk", some 1730754000123⟩]
      ∧ (noteFormSubmit signedInState "n2" 1730754060000 (.error ⟨"offline"⟩)).1.authMsg
          = some ⟨"Save failed: offline", false⟩ :=
  ⟨by decide,
   (create_is_optimistic_prepend strictHost signedInState ⟨"u1", some "a@b.com"⟩ "n2" 1730754060000
      rfl rfl rfl (by decide) (by decide) (by decide) (by decide) (by decide)).2.2.2.1 _,
   ((create_is_optimistic_prepend strictHost signedInState ⟨"u1", some "a@b.com"⟩ "n2" 1730754060000
      rfl rfl rfl (by decide) (by decide) (by decide) (by decide) (by decide)).2.2.2.2
        ⟨"offline"⟩).1⟩

-- ---------------------------------------------------------------------------
-- Sign-out
-- ---------------------------------------------------------------------------

theorem performSignOutResume_cleared (s : State) (r : Except JsError Unit) :
    (performSignOutResume s r).currentUser = none ∧ (performSignOutResume s r).notes = [] := by
  unfold performSignOutResume
  split
  · simp
  · split_ifs <;> simp

/-- C4. Sign-out always ends signed out locally: from every state and for every
outcome of the race between the remote signOut call and the 8000 ms timer (the call
resolves first, it rejects first with any error, or the timer fires first),
performSignOut issues the one signOut call and finishes with currentUser null and an
empty note sequence. When the timer fires first the status region (if the page has
one) shows "Signed out (network timeout, using local fallback)."; when the call
resolves first it shows "Signed out successfully.". -/
theorem performSignOut_always_signs_out (s : State) (outcome : SignOutOutcome) :
    (performSignOut s outcome).1.currentUser = none
      ∧ (performSignOut s outcome).1.notes = []
      ∧ (performSignOut s outcome).2 = [RemoteCall.signOut]
      ∧ signOutDeadlineMs = 8000
      ∧ (performSignOut s SignOutOutcome.deadline).1.authMsg
          = s.authMsg.map (fun _ =>
              ⟨"Signed out (network timeout, using local fallback).", false⟩)
      ∧ (performSignOut s SignOutOutcome.resolved).1.authMsg
          = s.authMsg.map (fun _ => ⟨"Signed out successfully.", false⟩) := by
  refine ⟨?_, ?_, rfl, rfl, ?_, ?_⟩
  · exact (performSignOutResume_cleared _ _).1
  · exact (performSignOutResume_cleared _ _).2
  · have hinc : includes signOutTimeoutError.message "timed out" = true := by decide
    unfold performSignOut performSignOutBegin performSignOutResume raceSignOut
    simp only [hinc, if_true, setButtonLoading_authMsg, updateAuthStatus_authMsg, render_authMsg,
      updateAuthUI_authMsg]
    cases s.authMsg <;> simp
  · unfold performSignOut performSignOutBegin performSignOutResume raceSignOut
    simp only [setButtonLoading_authMsg, updateAuthStatus_authMsg, render_authMsg,
      updateAuthUI_authMsg]
    cases s.authMsg <;> simp

-- ---------------------------------------------------------------------------
-- Delete
-- ---------------------------------------------------------------------------

theorem deleteBtnClick_signedIn (s : State) (user : User) (noteId : String)
    (result : Except JsError Unit) (hu : s.currentUser = some user) :
    deleteBtnClick s noteId true result
      = (deleteBtnClickResume s noteId result, [RemoteCall.delete noteId user.id]) := by
  unfold deleteBtnClick deleteBtnClickBegin
  rw [hu]
  simp

theorem deleteBtnClickResume_ok_notes (s : State) (noteId : String) :
    (deleteBtnClickResume s noteId (.ok ())).notes
      = s.notes.filter (fun n => decide (n.id ≠ noteId)) := by
  unfold deleteBtnClickResume
  simp

theorem deleteBtnClickResume_ok_currentUser (s : State) (noteId : String) :
    (deleteBtnClickResume s noteId (.ok ())).currentUser = s.currentUser := by
  unfold deleteBtnClickResume
  simp

/-- C6. Delete never corrupts the local projection. Signed in and confirmed, a delete
whose remote call succeeds leaves exactly the notes whose id differs from the deleted
one, each unchanged and in the same relative order (the result is the previous
sequence filtered, a sublist of it, and contains a note if and only if the note was there
with another id); the remote call is the delete of that id for the signed-in
user. Deleting the same id again, with success or with failure, leaves the sequence
equal to the result of the first delete. A delete whose remote call fails with reason
r leaves the sequence unchanged and puts "Delete failed: r" in the status region,
visible and with no auto-hide timer. -/
theorem delete_never_corrupts (s : State) (user : User) (noteId : String)
    (hu : s.currentUser = some user) (hm : s.authMsg ≠ none) :
    (deleteBtnClick s noteId true (.ok ())).1.notes
        = s.notes.filter (fun n => decide (n.id ≠ noteId))
      ∧ (deleteBtnClick s noteId true (.ok ())).2 = [RemoteCall.delete noteId user.id]
      ∧ List.Sublist (deleteBtnClick s noteId true (.ok ())).1.notes s.notes
      ∧ (∀ n : Note, n ∈ (deleteBtnClick s noteId true (.ok ())).1.notes
          ↔ n ∈ s.notes ∧ n.id ≠ noteId)
      ∧ (∀ result : Except JsError Unit,
          (deleteBtnClick (deleteBtnClick s noteId true (.ok ())).1 noteId true result).1.notes
            = (deleteBtnClick s noteId true (.ok ())).1.notes)
      ∧ (∀ r : JsError,
          (deleteBtnClick s noteId true (.error r)).1.notes = s.notes
            ∧ (deleteBtnClick s noteId true (.error r)).1.authMsg
                = some ⟨"Delete failed: " ++ r.message, false⟩
            ∧ (deleteBtnClick s noteId true (.error r)).1.statusTimer = none) := by
  have h1 : ∀ result, deleteBtnClick s noteId true result
      = (deleteBtnClickResume s noteId result, [RemoteCall.delete noteId user.id]) :=
    fun result => deleteBtnClick_signedIn s user noteId result hu
  have hu2 : (deleteBtnClickResume s noteId (.ok ())).currentUser = some user := by
    rw [deleteBtnClickResume_ok_currentUser]; exact hu
  refine ⟨?_, ?_, ?_, ?_, ?_, ?_⟩
  · rw [h1]; exact deleteBtnClickResume_ok_notes s noteId
  · rw [h1]
  · rw [h1]; simp only [deleteBtnClickResume_ok_notes]; exact List.filter_sublist _
  · intro n
    rw [h1]; simp only [deleteBtnClickResume_ok_notes]
    simp [List.mem_filter]
  · intro result
    rw [h1]
    simp only
    rw [deleteBtnClick_signedIn _ user noteId result hu2]
    simp only
    cases result with
    | ok u =>
      rw [deleteBtnClickResume_ok_notes, deleteBtnClickResume_ok_notes, List.filter_filter]
      simp
    | error r =>
      unfold deleteBtnClickResume
      simp
  · intro r
    rw [h1]
    simp only [deleteBtnClickResume]
    have h := updateAuthStatus_persistent s ("Delete failed: " ++ r.message) hm
    have hne : "Delete failed: " ++ r.message ≠ "" := append_ne_empty _ _ (by decide)
    simp only [hne, decide_False] at h
    exact ⟨updateAuthStatus_notes _ _ _, h⟩

theorem delete_never_corrupts_witness :
    (signedInState.currentUser = some ⟨"u1", some "a@b.com"⟩ ∧ signedInState.authMsg ≠ none)
      ∧ (deleteBtnClick signedInState "n1" true (.ok ())).1.notes
          = signedInState.notes.filter (fun n => decide (n.id ≠ "n1"))
      ∧ (deleteBtnClick signedInState "n1" true (.ok ())).2 = [RemoteCall.delete "n1" "u1"] :=
  ⟨by decide,
   (delete_never_corrupts signedInState ⟨"u1", some "a@b.com"⟩ "n1" rfl (by decide)).1,
   (delete_never_corrupts signedInState ⟨"u1", some "a@b.com"⟩ "n1" rfl (by decide)).2.1⟩

-- ---------------------------------------------------------------------------
-- Count summary and rendering
-- ---------------------------------------------------------------------------

/-- C7. The count summary is plural-aware for every length: noteCountText is
"0 notes" for the empty sequence, "1 note" for a sequence of exactly one note, and
the decimal length followed by " notes" for every sequence of two or more notes.
render shows the empty-state indicator exactly when the sequence is empty, produces
one list entry per note, in sequence order, carrying the title and content of the
note, and writes that count text. -/
theorem noteCountText_and_render (s : State) :
    (s.notes = [] → noteCountText s.notes = "0 notes")
      ∧ (s.notes.length = 1 → noteCountText s.notes = "1 note")
      ∧ (2 ≤ s.notes.length → noteCountText s.notes = Nat.repr s.notes.length ++ " notes")
      ∧ ((render s).view.emptyShown = true ↔ s.notes = [])
      ∧ (render s).view.items
          = s.notes.map (fun n => { id := n.id, title := n.title, content := n.content })
      ∧ (render s).view.items.length = s.notes.length
      ∧ (render s).view.countText = noteCountText s.notes := by
  refine ⟨?_, ?_, ?_, ?_, ?_, ?_, rfl⟩
  · intro h; rw [h]; decide
  · intro h; unfold noteCountText; rw [if_pos h]
  · intro h; unfold noteCountText; rw [if_neg (by omega)]
  · simp [render, List.length_eq_zero]
  · unfold render
    by_cases h : s.notes.length = 0
    · have : s.notes = [] := List.length_eq_zero.mp h
      simp [this]
    · simp [h]
  · unfold render
    by_cases h : s.notes.length = 0
    · simp [h]
    · simp [h]

theorem noteCountText_and_render_witness :
    noteCountText signedInState.notes = "1 note"
      ∧ (render signedInState).view.items = [⟨"n1", "Groceries", "milk"⟩] :=
  ⟨(noteCountText_and_render signedInState).2.1 rfl,
   (noteCountText_and_render signedInState).2.2.2.2.1⟩

-- ---------------------------------------------------------------------------
-- Status modes
-- ---------------------------------------------------------------------------

/-- C8, as stated, fails: performSignOut reports a network error with the default
autoHide = true, the message is not empty, and no auto-hide timer is scheduled,
because the message contains the word "error". -/
theorem updateAuthStatus_autoHide_counterexample :
    "Signed out (network error, using local fallback)." ≠ ""
      ∧ (updateAuthStatus signedInState
            "Signed out (network error, using local fallback)." true).authMsg
          = some ⟨"Signed out (network error, using local fallback).", false⟩
      ∧ (updateAuthStatus signedInState
            "Signed out (network error, using local fallback)." true).statusTimer = none
      ∧ (performSignOut signedInState
            (SignOutOutcome.rejected ⟨"Failed to fetch"⟩)).1.statusTimer = none := by
  decide

/-- C8, amended. On a page that has the status element, updateAuthStatus shows every
non-empty message (text set, element visible), and schedules the 3-second auto-hide
exactly when the caller left autoHide true and the lower-cased message contains
neither "error" nor "failed"; in every other case, in particular whenever the caller
passes autoHide = false, no timer is scheduled and the message persists. An empty
message clears the status (empty text, element hidden) and schedules nothing. A
call always cancels the timer left by the previous one. -/
theorem updateAuthStatus_mode (s : State) (message : String) (autoHide : Bool)
    (hm : s.authMsg ≠ none) :
    (message ≠ "" →
        (updateAuthStatus s message autoHide).authMsg = some ⟨message, false⟩
          ∧ ((updateAuthStatus s message autoHide).statusTimer = some ⟨message, 3000⟩
              ↔ (autoHide = true ∧ includes (toLowerCase message) "error" = false
                  ∧ includes (toLowerCase message) "failed" = false))
          ∧ ((updateAuthStatus s message autoHide).statusTimer = none
              ↔ ¬ (autoHide = true ∧ includes (toLowerCase message) "error" = false
                  ∧ includes (toLowerCase message) "failed" = false)))
      ∧ (updateAuthStatus s message false).statusTimer = none
      ∧ (updateAuthStatus s "" autoHide).authMsg = some ⟨"", true⟩
      ∧ (updateAuthStatus s "" autoHide).statusTimer = none := by
  cases ha : s.authMsg with
  | none => exact absurd ha hm
  | some a =>
    unfold updateAuthStatus
    simp only [ha]
    refine ⟨?_, ?_, ?_, ?_⟩
    · intro hne
      simp only [hne, decide_False, ne_eq, not_false_eq_true, true_and]
      refine ⟨?_, ?_⟩
      · split_ifs with h
        · simp [h, statusHideMs]
        · simp [h]
      · split_ifs with h
        · simp [h]
        · simp [h]
    · simp
    · simp
    · simp

theorem updateAuthStatus_mode_witness :
    signedInState.authMsg ≠ none
      ∧ (updateAuthStatus signedInState "Load failed: offline" false).statusTimer = none
      ∧ (updateAuthStatus signedInState "" true).authMsg = some ⟨"", true⟩ :=
  ⟨by decide,
   (updateAuthStatus_mode signedInState "Load failed: offline" false (by decide)).2.1,
   (updateAuthStatus_mode signedInState "" true (by decide)).2.2.1⟩

-- ---------------------------------------------------------------------------
-- Order of the note sequence
-- ---------------------------------------------------------------------------

theorem sortedDesc_nil : SortedDesc [] := List.Pairwise.nil

theorem sortedDesc_of_created (l m : List Note)
    (h : m.map (fun n => n.created) = l.map (fun n => n.created)) (hl : SortedDesc l) :
    SortedDesc m := by
  unfold SortedDesc at *
  have e : ∀ k : List Note, List.Pairwise (fun a b => geTime a.created b.created) k
      ↔ List.Pairwise geTime (k.map fun n => n.created) := by
    intro k
    rw [List.pairwise_map]
  rw [e] at *
  rw [h]; exact hl

theorem updateFirst_created (id title content : String) (l : List Note) :
    (updateFirst id title content l).map (fun n => n.created) = l.map (fun n => n.created) := by
  induction l with
  | nil => rfl
  | cons n ns ih =>
    unfold updateFirst
    split_ifs
    · simp
    · simp [ih]

theorem updateFirst_ids (id title content : String) (l : List Note) :
    (updateFirst id title content l).map (fun n => n.id) = l.map (fun n => n.id) := by
  induction l with
  | nil => rfl
  | cons n ns ih =>
    unfold updateFirst
    split_ifs
    · simp
    · simp [ih]

theorem sortedDesc_filter (l : List Note) (p : Note → Bool) (hl : SortedDesc l) :
    SortedDesc (l.filter p) :=
  List.Pairwise.sublist (List.filter_sublist l) hl

theorem applySession_notes (host : String → Option Int) (s : State) (session : Option Session)
    (result : Except JsError (Option (List Row))) :
    (applySession host s session result).1.notes = s.notes
      ∨ (applySession host s session result).1.notes = []
      ∨ ∃ rows, result = .ok (some rows)
          ∧ (applySession host s session result).1.notes = rows.map (rowToNote host) := by
  unfold applySession applySessionBegin
  split_ifs with h
  · left; rfl
  · simp only [updateAuthUI_currentUser]
    cases hu : sessionUser session with
    | none => right; left; simp
    | some u =>
      simp only
      unfold applySessionResume cloudLoadNotes
      cases result with
      | error e => right; left; simp
      | ok data =>
        cases data with
        | none => right; left; simp
        | some rows => right; right; exact ⟨rows, rfl, by simp⟩

theorem noteFormSubmit_notes (s : State) (newId : String) (now : Int)
    (result : Except JsError Unit) :
    (noteFormSubmit s newId now result).1.notes = s.notes
      ∨ (noteFormSubmit s newId now result).1.notes
          = updateFirst (s.editingNoteId.getD "") (trim s.noteTitleInput)
              (trim s.noteContentInput) s.notes
      ∨ (truthy s.editingNoteId = false
          ∧ (noteFormSubmit s newId now result).1.notes
              = ⟨newId, trim s.noteTitleInput, trim s.noteContentInput, some now⟩ :: s.notes) := by
  unfold noteFormSubmit
  cases hu : s.currentUser with
  | none => rw [noteFormSubmitBegin_signedOut s newId now hu]; left; rfl
  | some user =>
    cases hs : s.isSyncing with
    | true => rw [noteFormSubmitBegin_syncing s newId now hs]; left; rfl
    | false =>
      by_cases hb : trim s.noteTitleInput = "" ∨ trim s.noteContentInput = ""
      · rw [noteFormSubmitBegin_blank s newId now user hu hs hb]; left; simp
      · have ht : trim s.noteTitleInput ≠ "" := fun h => hb (Or.inl h)
        have hc : trim s.noteContentInput ≠ "" := fun h => hb (Or.inr h)
        cases he : truthy s.editingNoteId with
        | false =>
          right; right
          refine ⟨rfl, ?_⟩
          rw [noteFormSubmitBegin_create s newId now user hu hs ht hc he]
          split <;> simp [noteFormSubmitResume_notes]
        | true =>
          rw [noteFormSubmitBegin_edit s newId now user hu hs ht hc he]
          split
          · right; left; simp [noteFormSubmitResume_notes]
          · left; simp [noteFormSubmitResume_notes]

theorem noteFormSubmit_edit_shape (s : State) (newId : String) (now : Int)
    (result : Except JsError Unit) (he : truthy s.editingNoteId = true) :
    (noteFormSubmit s newId now result).1.notes.map (fun n => n.id)
        = s.notes.map (fun n => n.id)
      ∧ (noteFormSubmit s newId now result).1.notes.map (fun n => n.created)
        = s.notes.map (fun n => n.created)
      ∧ (noteFormSubmit s newId now result).1.notes.length = s.notes.length := by
  rcases noteFormSubmit_notes s newId now result with h | h | ⟨hf, _⟩
  · rw [h]; exact ⟨rfl, rfl, rfl⟩
  · rw [h]
    refine ⟨updateFirst_ids _ _ _ _, updateFirst_created _ _ _ _, ?_⟩
    have := congrArg List.length (updateFirst_ids (s.editingNoteId.getD "")
      (trim s.noteTitleInput) (trim s.noteContentInput) s.notes)
    simpa using this
  · rw [he] at hf; exact absurd hf (by decide)

theorem noteFormSubmitResume_ok_status (s : State) :
    (noteFormSubmitResume s (.ok ())).authMsg
      = s.authMsg.map (fun _ => ⟨"Note saved successfully!", false⟩) := by
  unfold noteFormSubmitResume
  simp only [render_editingNoteId, closeModal_editingNoteId, truthy, Bool.false_eq_true,
    if_false, updateAuthStatus_authMsg, render_authMsg, closeModal_authMsg]
  cases s.authMsg <;> simp

theorem deleteBtnClick_notes (s : State) (noteId : String) (confirmed : Bool)
    (result : Except JsError Unit) :
    (deleteBtnClick s noteId confirmed result).1.notes = s.notes
      ∨ (deleteBtnClick s noteId confirmed result).1.notes
          = s.notes.filter (fun n => decide (n.id ≠ noteId)) := by
  unfold deleteBtnClick deleteBtnClickBegin
  cases hu : s.currentUser with
  | none => left; simp
  | some user =>
    cases confirmed with
    | false => left; simp
    | true =>
      simp only [Bool.true_eq_false, if_false]
      cases result with
      | ok u => right; exact deleteBtnClickResume_ok_notes s noteId
      | error r => left; simp [deleteBtnClickResume]

/-- C9, as stated, fails: the note sequence holds one note created at
2024-11-04T21:00:00.123Z and is sorted; the form is submitted while Date.now() reads
2024-11-04T20:59:50.000Z (a clock ten seconds behind the one that stamped the
note); the new note is put in front and the sequence is no longer sorted by
created descending. -/
theorem create_order_counterexample :
    SortedDesc signedInState.notes
      ∧ (noteFormSubmit signedInState "n2" 1730753990000 (.ok ())).1.notes
          = [⟨"n2", "T", "C", some 1730753990000⟩,
             ⟨"n1", "Groceries", "milk", some 1730754000123⟩]
      ∧ ¬ SortedDesc (noteFormSubmit signedInState "n2" 1730753990000 (.ok ())).1.notes := by
  decide

/-- C9, amended. From a note sequence sorted by created descending, each operation
on the projection leaves a sequence sorted by created descending: a reconciliation,
whatever the engine, the session and the outcome of the load query, given that the
rows it returns are, in their order, the stored rows of notes sorted by created
descending, created being on the wire the ISO-8601 string cloudAddNote writes for a
valid time value; a form submission (edit or create), whatever its outcome, given
that Date.now() is not earlier than the created value of any note already in the
sequence; an edit, unconditionally; a delete; a sign-out. -/
theorem sortedDesc_preserved (s : State) (hs : SortedDesc s.notes) :
    (∀ (host : String → Option Int) (session : Option Session)
        (result : Except JsError (Option (List Row))),
        (∀ rows, result = .ok (some rows) →
          ∃ stored : List Note, SortedDesc stored ∧ rows.map some = stored.map noteRow) →
        SortedDesc (applySession host s session result).1.notes)
      ∧ (∀ (newId : String) (now : Int) (result : Except JsError Unit),
          (∀ n ∈ s.notes, geTime (some now) n.created) →
          SortedDesc (noteFormSubmit s newId now result).1.notes)
      ∧ (∀ (newId : String) (now : Int) (result : Except JsError Unit),
          truthy s.editingNoteId = true →
          SortedDesc (noteFormSubmit s newId now result).1.notes)
      ∧ (∀ (noteId : String) (confirmed : Bool) (result : Except JsError Unit),
          SortedDesc (deleteBtnClick s noteId confirmed result).1.notes)
      ∧ (∀ outcome : SignOutOutcome, SortedDesc (performSignOut s outcome).1.notes) := by
  refine ⟨?_, ?_, ?_, ?_, ?_⟩
  · intro host session result hrows
    rcases applySession_notes host s session result with h | h | ⟨rows, hr, h⟩
    · rw [h]; exact hs
    · rw [h]; exact sortedDesc_nil
    · obtain ⟨stored, hsorted, hwire⟩ := hrows rows hr
      rw [h, map_rowToNote_noteRow host stored rows hwire]
      exact hsorted
  · intro newId now result hnow
    rcases noteFormSubmit_notes s newId now result with h | h | ⟨_, h⟩
    · rw [h]; exact hs
    · rw [h]; exact sortedDesc_of_created _ _ (updateFirst_created _ _ _ _) hs
    · rw [h]
      exact List.Pairwise.cons (fun n hn => hnow n hn) hs
  · intro newId now result he
    rcases noteFormSubmit_notes s newId now result with h | h | ⟨hf, _⟩
    · rw [h]; exact hs
    · rw [h]; exact sortedDesc_of_created _ _ (updateFirst_created _ _ _ _) hs
    · rw [he] at hf; exact absurd hf (by decide)
  · intro noteId confirmed result
    rcases deleteBtnClick_notes s noteId confirmed result with h | h
    · rw [h]; exact hs
    · rw [h]; exact sortedDesc_filter _ _ hs
  · intro outcome
    have h : (performSignOut s outcome).1.notes = [] := (performSignOutResume_cleared _ _).2
    rw [h]; exact sortedDesc_nil

theorem sortedDesc_preserved_witness :
    SortedDesc signedInState.notes
      ∧ [exampleRow].map some = [⟨"n1", "Groceries", "milk", some 1730754000123⟩].map noteRow
      ∧ SortedDesc (applySession strictHost signedInState
          (some ⟨some ⟨"u1", some "a@b.com"⟩⟩) (.ok (some [exampleRow]))).1.notes
      ∧ SortedDesc (noteFormSubmit signedInState "n2" 1730754060000 (.ok ())).1.notes
      ∧ SortedDesc (deleteBtnClick signedInState "n1" true (.ok ())).1.notes :=
  ⟨by decide, by decide,
   (sortedDesc_preserved signedInState (by decide)).1 strictHost
     (some ⟨some ⟨"u1", some "a@b.com"⟩⟩) (.ok (some [exampleRow]))
     (fun rows hr => by
       injection hr with hr
       injection hr with hr
       subst hr
       exact ⟨[⟨"n1", "Groceries", "milk", some 1730754000123⟩], by decide, by decide⟩),
   (sortedDesc_preserved signedInState (by decide)).2.1 "n2" 1730754060000 (.ok ())
     (by decide),
   (sortedDesc_preserved signedInState (by decide)).2.2.2.1 "n1" true (.ok ())⟩

-- ---------------------------------------------------------------------------
-- The success message of the note form
-- ---------------------------------------------------------------------------

/-- C10 at a failing input: an edit is submitted (the editing target is the note n1,
the form holds a new title and content) and the update succeeds. The note is updated
in place, the update call is issued, yet the final status message is "Note saved
successfully!" and not "Note updated successfully!": closeModal() has reset
editingNoteId to null before the message is chosen. -/
theorem edit_success_status_is_saved :
    truthy editingState.editingNoteId = true
      ∧ (noteFormSubmit editingState "n2" 1730754060000 (.ok ())).2
          = [RemoteCall.update "n1" "u1" "Shopping" "milk, eggs"]
      ∧ (noteFormSubmit editingState "n2" 1730754060000 (.ok ())).1.notes
          = [⟨"n1", "Shopping", "milk, eggs", some 1730754000123⟩]
      ∧ (noteFormSubmit editingState "n2" 1730754060000 (.ok ())).1.authMsg
          = some ⟨"Note saved successfully!", false⟩
      ∧ (noteFormSubmit editingState "n2" 1730754060000 (.ok ())).1.authMsg
          ≠ some ⟨"Note updated successfully!", false⟩ := by
  decide

end QuickNotes
